import Mathlib

/-!
# go-token-handler: PKCE parameters, authentication flow and token injection

A shallow embedding of `pkg/pkce/pkce.go` and `pkg/auth/auth.go`.

* Pure Go functions are Lean functions.
* Handlers that work on an `echo.Context` are functions from a `Context`
  (request, response, request-scoped session registry, persisted session
  store, trace of outbound calls) to the resulting `Context` and the Go
  `error` they return (`none` is `nil`, `some msg` carries `err.Error()`).
* What the environment decides (clock, provider answers, store failures) is
  a field of `Env`; the entropy source is an argument of `NewCodeVerifier`
  and of `createAuth`.
* Library calls (`oauth2`, `gorilla/sessions`, `echo`, `crypto/sha256`,
  `encoding/base64`, `encoding/hex`, `net/url`, `google/uuid`) are modelled by
  what their documentation states.
-/

set_option autoImplicit false
set_option maxRecDepth 100000

namespace TokenHandler

/-! ## Library primitives used by `pkg/pkce`: hex, base64url, SHA-256 -/

namespace Lib

/-- UTF-8 encoding of one character, as bytes (`[]byte(string)` in Go). -/
def utf8Char (c : Char) : List Nat :=
  let n := c.toNat
  if n < 0x80 then [n]
  else if n < 0x800 then [0xC0 + n / 0x40, 0x80 + n % 0x40]
  else if n < 0x10000 then [0xE0 + n / 0x1000, 0x80 + (n / 0x40) % 0x40, 0x80 + n % 0x40]
  else [0xF0 + n / 0x40000, 0x80 + (n / 0x1000) % 0x40, 0x80 + (n / 0x40) % 0x40, 0x80 + n % 0x40]

/-- The bytes of a Go string. -/
def bytesOfString (s : String) : List Nat :=
  s.toList.flatMap utf8Char

/-- One hexadecimal digit, lower case (`hex.EncodeToString` alphabet). -/
def hexDigit (n : Nat) : Char :=
  "0123456789abcdef".toList.getD n '0'

/-- Model of `hex.EncodeToString`: two lower-case digits per byte. -/
def hexEncode (bs : List Nat) : String :=
  String.mk (bs.flatMap fun b => [hexDigit ((b % 256) / 16), hexDigit (b % 16)])

/-- The URL-safe base64 alphabet of RFC 4648 section 5. -/
def b64urlAlphabet : List Char :=
  "ABCDEFGHIJKLMNOPQRSTUVWXYZabcdefghijklmnopqrstuvwxyz0123456789-_".toList

/-- One base64url digit. -/
def b64Digit (n : Nat) : Char :=
  b64urlAlphabet.getD n 'A'

/-- Base64url digits of a byte list, without padding. -/
def b64Chars : List Nat → List Char
  | [] => []
  | [a] => [b64Digit (a / 4), b64Digit ((a % 4) * 16)]
  | [a, b] => [b64Digit (a / 4), b64Digit ((a % 4) * 16 + b / 16), b64Digit ((b % 16) * 4)]
  | a :: b :: c :: rest =>
    b64Digit (a / 4) :: b64Digit ((a % 4) * 16 + b / 16) ::
      b64Digit ((b % 16) * 4 + c / 64) :: b64Digit (c % 64) :: b64Chars rest

/-- Model of `base64.RawURLEncoding.EncodeToString`. -/
def rawURLEncode (bs : List Nat) : String :=
  String.mk (b64Chars bs)

/-- Addition of 32-bit words. -/
def add32 (a b : Nat) : Nat := (a + b) % 2 ^ 32

/-- Rotate a 32-bit word right by `n` bits. -/
def rotr (n x : Nat) : Nat := ((x >>> n) ||| (x <<< (32 - n))) % 2 ^ 32

/-- Bitwise complement of a 32-bit word. -/
def not32 (x : Nat) : Nat := (2 ^ 32 - 1) ^^^ x

/-- The round constants of SHA-256 (FIPS 180-4, section 4.2.2). -/
def sha256K : List Nat :=
  [0x428a2f98, 0x71374491, 0xb5c0fbcf, 0xe9b5dba5, 0x3956c25b, 0x59f111f1, 0x923f82a4, 0xab1c5ed5,
   0xd807aa98, 0x12835b01, 0x243185be, 0x550c7dc3, 0x72be5d74, 0x80deb1fe, 0x9bdc06a7, 0xc19bf174,
   0xe49b69c1, 0xefbe4786, 0x0fc19dc6, 0x240ca1cc, 0x2de92c6f, 0x4a7484aa, 0x5cb0a9dc, 0x76f988da,
   0x983e5152, 0xa831c66d, 0xb00327c8, 0xbf597fc7, 0xc6e00bf3, 0xd5a79147, 0x06ca6351, 0x14292967,
   0x27b70a85, 0x2e1b2138, 0x4d2c6dfc, 0x53380d13, 0x650a7354, 0x766a0abb, 0x81c2c92e, 0x92722c85,
   0xa2bfe8a1, 0xa81a664b, 0xc24b8b70, 0xc76c51a3, 0xd192e819, 0xd6990624, 0xf40e3585, 0x106aa070,
   0x19a4c116, 0x1e376c08, 0x2748774c, 0x34b0bcb5, 0x391c0cb3, 0x4ed8aa4a, 0x5b9cca4f, 0x682e6ff3,
   0x748f82ee, 0x78a5636f, 0x84c87814, 0x8cc70208, 0x90befffa, 0xa4506ceb, 0xbef9a3f7, 0xc67178f2]

/-- Big-endian bytes of `x`, `n` of them. -/
def beBytes : Nat → Nat → List Nat
  | 0, _ => []
  | n + 1, x => (x / 256 ^ n) % 256 :: beBytes n x

/-- Padding of a message to a multiple of 64 bytes (FIPS 180-4, section 5.1.1). -/
def sha256Pad (msg : List Nat) : List Nat :=
  let l := msg.length
  msg ++ [0x80] ++ List.replicate ((119 - l % 64) % 64) 0 ++ beBytes 8 (8 * l)

/-- Big-endian 32-bit words of a byte list (length a multiple of 4). -/
def beWords : List Nat → List Nat
  | a :: b :: c :: d :: rest => (((a * 256 + b) * 256 + c) * 256 + d) :: beWords rest
  | _ => []

/-- Extend the message schedule, kept newest first, by `n` words. -/
def sha256Extend : Nat → List Nat → List Nat
  | 0, w => w
  | n + 1, w =>
    let w2 := w.getD 1 0
    let w7 := w.getD 6 0
    let w15 := w.getD 14 0
    let w16 := w.getD 15 0
    let s0 := rotr 7 w15 ^^^ rotr 18 w15 ^^^ (w15 >>> 3)
    let s1 := rotr 17 w2 ^^^ rotr 19 w2 ^^^ (w2 >>> 10)
    sha256Extend n (add32 (add32 (add32 s1 w7) s0) w16 :: w)

/-- The 64-word message schedule of one 16-word block, oldest first. -/
def sha256Schedule (block : List Nat) : List Nat :=
  (sha256Extend 48 block.reverse).reverse

/-- The eight working variables of the compression function. -/
structure ShaState where
  a : Nat
  b : Nat
  c : Nat
  d : Nat
  e : Nat
  f : Nat
  g : Nat
  h : Nat
deriving DecidableEq, Repr

/-- One round of the compression function with constant `k` and schedule word `w`. -/
def sha256Round (s : ShaState) (k w : Nat) : ShaState :=
  let s1 := rotr 6 s.e ^^^ rotr 11 s.e ^^^ rotr 25 s.e
  let ch := (s.e &&& s.f) ^^^ (not32 s.e &&& s.g)
  let t1 := add32 (add32 (add32 (add32 s.h s1) ch) k) w
  let s0 := rotr 2 s.a ^^^ rotr 13 s.a ^^^ rotr 22 s.a
  let maj := (s.a &&& s.b) ^^^ (s.a &&& s.c) ^^^ (s.b &&& s.c)
  let t2 := add32 s0 maj
  { a := add32 t1 t2, b := s.a, c := s.b, d := s.c, e := add32 s.d t1, f := s.e, g := s.f, h := s.g }

/-- All rounds over paired constants and schedule words. -/
def sha256Rounds : ShaState → List (Nat × Nat) → ShaState
  | s, [] => s
  | s, (k, w) :: rest => sha256Rounds (sha256Round s k w) rest

/-- Compress one block (16 words) into the running hash. -/
def sha256Block (h : ShaState) (block : List Nat) : ShaState :=
  let r := sha256Rounds h (sha256K.zip (sha256Schedule block))
  { a := add32 h.a r.a, b := add32 h.b r.b, c := add32 h.c r.c, d := add32 h.d r.d,
    e := add32 h.e r.e, f := add32 h.f r.f, g := add32 h.g r.g, h := add32 h.h r.h }

/-- Compress `n` consecutive blocks of the word list. -/
def sha256Blocks : Nat → ShaState → List Nat → ShaState
  | 0, h, _ => h
  | n + 1, h, ws => sha256Blocks n (sha256Block h (ws.take 16)) (ws.drop 16)

/-- Model of `sha256.Sum256`: the 32 bytes of the digest, from the initial hash
value of FIPS 180-4, section 5.3.3. -/
def sha256 (msg : List Nat) : List Nat :=
  let ws := beWords (sha256Pad msg)
  let h0 : ShaState :=
    { a := 0x6a09e667, b := 0xbb67ae85, c := 0x3c6ef372, d := 0xa54ff53a,
      e := 0x510e527f, f := 0x9b05688c, g := 0x1f83d9ab, h := 0x5be0cd19 }
  let r := sha256Blocks (ws.length / 16) h0 ws
  [r.a, r.b, r.c, r.d, r.e, r.f, r.g, r.h].flatMap (beBytes 4)

end Lib

/-! ## `golang.org/x/oauth2`: the part of the library the handlers call -/

namespace oauth2

/-- Model of `oauth2.SetAuthURLParam(key, value)`: one URL parameter. -/
structure AuthCodeOption where
  key : String
  value : String
deriving DecidableEq, Repr

/-- Model of `oauth2.Token`. `Expiry` is a `time.Time`, counted in nanoseconds
since the zero time, so that `Expiry.IsZero()` is `Expiry = 0`. -/
structure Token where
  AccessToken : String
  TokenType : String
  RefreshToken : String
  Expiry : Int
deriving DecidableEq, Repr

/-- Model of `oauth2.Endpoint`. -/
structure Endpoint where
  AuthURL : String
  TokenURL : String
deriving DecidableEq, Repr

/-- Model of `oauth2.Config`. -/
structure Config where
  ClientID : String
  ClientSecret : String
  Endpoint : Endpoint
  RedirectURL : String
  Scopes : List String
deriving DecidableEq, Repr

/-- Whether `c` folds to the lower-case ASCII letter `p` under Unicode simple
case folding (the orbit of `s` also holds U+017F, that of `k` U+212A). -/
def foldsTo (c p : Char) : Bool :=
  c == p || c.toNat + 32 == p.toNat && 65 ≤ c.toNat && c.toNat ≤ 90
    || (p == 's' && c.toNat == 0x17F) || (p == 'k' && c.toNat == 0x212A)

/-- Model of `strings.EqualFold(s, p)` for a lower-case ASCII word `p`. -/
def equalFold (s p : String) : Bool :=
  s.toList.length == p.toList.length && (s.toList.zip p.toList).all fun cp => foldsTo cp.1 cp.2

/-- Model of `(*Token).Type`: "Type returns t.TokenType if non-empty, else
Bearer", the spellings of bearer, mac and basic being normalised first. -/
def Token.Type (t : Token) : String :=
  if equalFold t.TokenType "bearer" then "Bearer"
  else if equalFold t.TokenType "mac" then "MAC"
  else if equalFold t.TokenType "basic" then "Basic"
  else if t.TokenType ≠ "" then t.TokenType
  else "Bearer"

/-- The library constant `expiryDelta`: ten seconds, in nanoseconds. -/
def expiryDelta : Int := 10 * 1000000000

/-- Model of `(*Token).expired` at clock reading `now`: a token without expiry
never expires, any other expires `expiryDelta` before its expiry. -/
def Token.expired (now : Int) (t : Token) : Bool :=
  if t.Expiry = 0 then false else decide (t.Expiry - expiryDelta < now)

/-- Model of `(*Token).Valid` at clock reading `now`: "Valid reports whether t
is non-nil, has an AccessToken, and is not expired". -/
def Token.Valid (now : Int) (t : Token) : Bool :=
  t.AccessToken ≠ "" && !t.expired now

end oauth2

/-! ## `pkg/pkce/pkce.go` -/

namespace pkce

def ParamCodeVerifier : String := "code_verifier"
def ParamCodeChallenge : String := "code_challenge"
def ParamCodeChallengeMethod : String := "code_challenge_method"

/-- Go `type ChallengeMethod string`. -/
abbrev ChallengeMethod := String

def ChallengeMethodPlain : ChallengeMethod := "plain"
def ChallengeMethodS256 : ChallengeMethod := "S256"

/-- Go `type CodeVerifier struct`. -/
structure CodeVerifier where
  Verifier : String
  Method : ChallengeMethod
deriving DecidableEq, Repr

/-- Go `randomBytesInHex(bytes)`. `rand n` is what `io.ReadFull(rand.Reader, buf)`
does on a buffer of `n` bytes: the bytes that fill it, or the error. -/
def randomBytesInHex (rand : Nat → Except String (List Nat)) (bytes : Nat) : Except String String :=
  match rand bytes with
  | .error err =>
    .error ("could not generate " ++ toString bytes ++ " random bytes: " ++ err)
  | .ok buf => .ok (Lib.hexEncode buf)

/-- Go `NewCodeVerifier()`. -/
def NewCodeVerifier (rand : Nat → Except String (List Nat)) : Except String CodeVerifier :=
  match randomBytesInHex rand 32 with
  | .error err => .error err
  | .ok v => .ok { Verifier := v, Method := ChallengeMethodS256 }

/-- Go `(*CodeVerifier).VerifierOptions()`. -/
def CodeVerifier.VerifierOptions (c : CodeVerifier) : List oauth2.AuthCodeOption :=
  [{ key := ParamCodeVerifier, value := c.Verifier }]

/-- Go `(*CodeVerifier).CodeChallengeOptions()`. -/
def CodeVerifier.CodeChallengeOptions (c : CodeVerifier) : List oauth2.AuthCodeOption :=
  let challenge := c.Verifier
  let challenge :=
    if c.Method = ChallengeMethodS256 then
      Lib.rawURLEncode (Lib.sha256 (Lib.bytesOfString challenge))
    else challenge
  [{ key := ParamCodeChallenge, value := challenge },
   { key := ParamCodeChallengeMethod, value := c.Method }]

end pkce

/-! ## `gorilla/sessions` and `echo`: sessions, store, request context -/

/-- Go `http.SameSite`; `unset` is the zero value. -/
inductive SameSite where
  | unset
  | defaultMode
  | lax
  | strict
  | noneMode
deriving DecidableEq, Repr

/-- Model of `sessions.Options`; every field defaults to its Go zero value. -/
structure Options where
  Path : String := ""
  Domain : String := ""
  MaxAge : Int := 0
  Secure : Bool := false
  HttpOnly : Bool := false
  SameSite : SameSite := SameSite.unset
deriving DecidableEq, Repr

/-- Go `type authentication struct` of `pkg/auth`; `Verifier` is a pointer,
`none` is `nil`. -/
structure authentication where
  Idp : String
  Verifier : Option pkce.CodeVerifier
  Path : String
deriving DecidableEq, Repr

/-- A value of the session map `map[interface{}]interface{}` with its dynamic
type: the three types the handlers assert, and any other. The `*oauth2.Token`
that `updateAuth` stores reads back from the store as an `oauth2.Token` (gob
flattens the pointer to the registered type), which is the constructor `token`. -/
inductive Value where
  | string (s : String)
  | token (t : oauth2.Token)
  | authentication (au : authentication)
  | other (tag : Nat)
deriving DecidableEq, Repr

/-- Type assertion `v.(string)` on a map lookup. -/
def assertString : Option Value → Option String
  | some (Value.string s) => some s
  | _ => none

/-- Type assertion `v.(oauth2.Token)` on a map lookup. -/
def assertToken : Option Value → Option oauth2.Token
  | some (Value.token t) => some t
  | _ => none

/-- Type assertion `v.(authentication)` on a map lookup. -/
def assertAuthentication : Option Value → Option authentication
  | some (Value.authentication au) => some au
  | _ => none

/-- Map assignment `m[k] = v` on an association list. -/
def mapSet {α : Type} (m : List (String × α)) (k : String) (v : α) : List (String × α) :=
  (k, v) :: m.filter fun e => e.1 != k

/-- Map deletion on an association list. -/
def mapErase {α : Type} (m : List (String × α)) (k : String) : List (String × α) :=
  m.filter fun e => e.1 != k

/-- Model of `sessions.Session`: the fields the handlers touch. -/
structure Session where
  Values : List (String × Value)
  Options : Options
deriving DecidableEq, Repr

/-- A record of the persistent store: the values of a saved session and the
options (cookie attributes, lifetime) it was saved with. -/
structure Stored where
  values : List (String × Value)
  cookie : Options
deriving DecidableEq, Repr

/-- Go `type AuthResource struct`. -/
structure AuthResource where
  ID : String := ""
  Idp : String := ""
  Path : String := ""
  AuthorizationURL : String := ""
  Code : String := ""
deriving DecidableEq, Repr

/-- The local `type list struct` of `listAuth`. -/
structure list where
  Count : Int
  Auths : List String
  Included : List AuthResource
deriving DecidableEq, Repr

/-- What a handler wrote as response body. -/
inductive Body where
  | empty
  | resource (r : AuthResource)
  | listing (l : list)
deriving DecidableEq, Repr

/-- One response write: `c.NoContent(code)` or `c.JSON(code, v)`. -/
structure Response where
  status : Nat
  body : Body
deriving DecidableEq, Repr

/-- Calls that leave the handler: to the provider, to the store, to the next
handler of the chain. -/
inductive Event where
  | exchange (p : oauth2.Config) (code : String) (opts : List oauth2.AuthCodeOption)
  | refresh (p : oauth2.Config) (refreshToken : String)
  | save (name : String) (s : Session) (ok : Bool)
  | next
deriving DecidableEq, Repr

/-- The request as the handlers read it: path parameters, the outcome of
`c.Bind` into a zero `AuthResource`, and the `Authorization` header. -/
structure Request where
  params : List (String × String)
  body : Except String AuthResource
  Authorization : Option String

/-- Model of `echo.Context` together with the session store behind it.
`registry` holds the sessions already fetched during this request (the
`*sessions.Session` pointers of the gorilla registry, by name); `store` holds
the persisted records; `response` and `trace` list writes and calls, oldest
first. -/
structure Context where
  request : Request
  response : List Response
  registry : List (String × Session)
  store : List (String × Stored)
  trace : List Event

/-- What the environment decides during a request. -/
structure Env where
  /-- Clock reading `time.Now()`, in nanoseconds since the zero time. -/
  now : Int
  /-- Options a session has when the store hands it out (`store.Options`). -/
  storeOptions : Options
  /-- Whether `session.Get(name, c)` fails, with the message. -/
  getErr : String → Option String
  /-- Whether `s.Save(r, w)` fails, with the message. -/
  saveErr : String → Session → Option String
  /-- Outcome of `(*oauth2.Config).Exchange(ctx, code, opts...)`. -/
  exchange : oauth2.Config → String → List oauth2.AuthCodeOption → Except String oauth2.Token
  /-- Outcome of the refresh request of the library token source. -/
  refresh : oauth2.Config → String → Except String oauth2.Token

/-- Model of `e.NewContext(req, rec)` over a store: nothing fetched, written or called yet. -/
def newContext (req : Request) (store : List (String × Stored)) : Context :=
  { request := req, response := [], registry := [], store := store, trace := [] }

/-- Model of `c.Param(name)`: the empty string when the parameter is absent. -/
def Context.Param (c : Context) (name : String) : String :=
  (c.request.params.lookup name).getD ""

/-- Append a call to the trace. -/
def Context.log (c : Context) (e : Event) : Context :=
  { c with trace := c.trace ++ [e] }

/-- Model of `c.NoContent(code)`; the write is recorded and does not fail. -/
def Context.NoContent (c : Context) (code : Nat) : Context :=
  { c with response := c.response ++ [{ status := code, body := Body.empty }] }

/-- Model of `c.JSON(code, v)`. The write is recorded, as by the response
recorder of the tests, and does not fail. -/
def Context.JSON (c : Context) (code : Nat) (b : Body) : Context :=
  { c with response := c.response ++ [{ status := code, body := b }] }

/-- The session a store hands out for `name`: the persisted values if a
record exists, otherwise a new empty session; always with the store options. -/
def loadSession (env : Env) (store : List (String × Stored)) (name : String) : Session :=
  match store.lookup name with
  | some r => { Values := r.values, Options := env.storeOptions }
  | none => { Values := [], Options := env.storeOptions }

/-- Model of `session.Get(name, c)`: the session registered for `name` in this
request, fetched from the store on first use. The result is the context in
which `name` is registered; the session itself is `Context.session`. -/
def sessionGet (env : Env) (name : String) (c : Context) : Except String Context :=
  match c.registry.lookup name with
  | some _ => .ok c
  | none =>
    match env.getErr name with
    | some err => .error err
    | none => .ok { c with registry := (name, loadSession env c.store name) :: c.registry }

/-- The session object registered under `name` (before registration: the
session that `session.Get` would hand out). -/
def Context.session (env : Env) (c : Context) (name : String) : Session :=
  (c.registry.lookup name).getD (loadSession env c.store name)

/-- Assignment `s.Values[key] = v` through the session pointer of `name`. -/
def Context.setValue (env : Env) (c : Context) (name key : String) (v : Value) : Context :=
  let s := c.session env name
  { c with registry := mapSet c.registry name { s with Values := mapSet s.Values key v } }

/-- Assignment `s.Options = &o` through the session pointer of `name`. -/
def Context.setOptions (env : Env) (c : Context) (name : String) (o : Options) : Context :=
  let s := c.session env name
  { c with registry := mapSet c.registry name { s with Options := o } }

/-- Model of `s.Save(r, w)` for the session of `name`: unless the store fails,
a session with non-positive `MaxAge` is erased from the store, any other is
written with its values and options. The call is traced either way. -/
def sessionSave (env : Env) (name : String) (c : Context) : Context × Option String :=
  let s := c.session env name
  match env.saveErr name s with
  | some err => (c.log (Event.save name s false), some err)
  | none =>
    ({ c.log (Event.save name s true) with
       store := if s.Options.MaxAge ≤ 0 then mapErase c.store name
                else mapSet c.store name { values := s.Values, cookie := s.Options } }, none)

/-- Model of `(*Config).TokenSource(ctx, &t).Token()`, the reusing token source
of the library: a valid token is returned as it is, with no call; otherwise the
refresh token, if set, is exchanged at the provider in one call, and without
refresh token the source fails with the library message. -/
def tokenSourceToken (env : Env) (p : oauth2.Config) (t : oauth2.Token) (c : Context) :
    Context × Except String oauth2.Token :=
  if t.Valid env.now then (c, .ok t)
  else if t.RefreshToken = "" then
    (c, .error "oauth2: token expired and refresh token is not set")
  else (c.log (Event.refresh p t.RefreshToken), env.refresh p t.RefreshToken)

/-- Model of `(*Token).SetAuthHeader(c.Request())`. -/
def Context.SetAuthHeader (c : Context) (t : oauth2.Token) : Context :=
  { c with request := { c.request with Authorization := some (t.Type ++ " " ++ t.AccessToken) } }

/-! ## `net/url`, `(*oauth2.Config).AuthCodeURL` and `google/uuid` -/

namespace url

/-- The bytes `url.QueryEscape` leaves as they are: letters, digits and the
marks `-`, `_`, `.`, `~`. -/
def unreserved (b : Nat) : Bool :=
  (97 ≤ b && b ≤ 122) || (65 ≤ b && b ≤ 90) || (48 ≤ b && b ≤ 57) ||
    b == 45 || b == 95 || b == 46 || b == 126

/-- One hexadecimal digit, upper case (the alphabet of percent-encoding). -/
def upperHexDigit (n : Nat) : Char :=
  "0123456789ABCDEF".toList.getD n '0'

/-- How `url.QueryEscape` writes one byte: itself, `+` for a blank, or `%XX`. -/
def escapeByte (b : Nat) : List Char :=
  if unreserved b then [Char.ofNat b]
  else if b = 32 then ['+']
  else ['%', upperHexDigit (b / 16), upperHexDigit (b % 16)]

/-- Model of `url.QueryEscape`. -/
def QueryEscape (s : String) : String :=
  String.mk ((Lib.bytesOfString s).flatMap escapeByte)

/-- Model of `url.Values` as far as `Set` fills it: one value per key. -/
abbrev Values := List (String × String)

/-- Go string comparison `<`: lexicographic on the bytes. -/
def bytesLt : List Nat → List Nat → Bool
  | _, [] => false
  | [], _ :: _ => true
  | a :: as, b :: bs => a < b || (a == b && bytesLt as bs)

/-- Insert a pair into a list of pairs sorted by key. -/
def insertParam (kv : String × String) : List (String × String) → List (String × String)
  | [] => [kv]
  | x :: xs =>
    if bytesLt (Lib.bytesOfString kv.1) (Lib.bytesOfString x.1) then kv :: x :: xs
    else x :: insertParam kv xs

/-- The pairs sorted by key (`sort.Strings` on the keys). -/
def sortParams : List (String × String) → List (String × String)
  | [] => []
  | x :: xs => insertParam x (sortParams xs)

/-- The `key=value` parts of the encoded form, escaped, in key order. -/
def Values.parts (v : Values) : List String :=
  (sortParams v).map fun kv => QueryEscape kv.1 ++ "=" ++ QueryEscape kv.2

/-- Model of `url.Values.Encode`: the parts joined by `&`. -/
def Values.Encode (v : Values) : String :=
  "&".intercalate (Values.parts v)

end url

namespace oauth2

/-- The `url.Values` that `(*Config).AuthCodeURL(state, opts...)` fills:
`response_type` and `client_id`; `redirect_uri`, `scope` and `state` when they
are not empty; then the options, each by `Set`. -/
def Config.authCodeValues (c : Config) (state : String) (opts : List AuthCodeOption) :
    url.Values :=
  let v : url.Values := [("response_type", "code"), ("client_id", c.ClientID)]
  let v := if c.RedirectURL ≠ "" then mapSet v "redirect_uri" c.RedirectURL else v
  let v := if c.Scopes.length > 0 then mapSet v "scope" (" ".intercalate c.Scopes) else v
  let v := if state ≠ "" then mapSet v "state" state else v
  opts.foldl (fun v opt => mapSet v opt.key opt.value) v

/-- Model of `(*Config).AuthCodeURL(state, opts...)`: the authorization
endpoint, `?` (or `&` when the endpoint already has a query), and the encoded
values. -/
def Config.AuthCodeURL (c : Config) (state : String) (opts : List AuthCodeOption) : String :=
  c.Endpoint.AuthURL ++ (if c.Endpoint.AuthURL.toList.contains '?' then "&" else "?") ++
    url.Values.Encode (c.authCodeValues state opts)

end oauth2

namespace uuid

/-- Model of `uuid.NewRandomFromReader`: the sixteen bytes read, with the
version (4) and variant (10) bits set. -/
def NewRandomFromReader (rand : Nat → Except String (List Nat)) : Except String (List Nat) :=
  match rand 16 with
  | .error err => .error err
  | .ok buf =>
    .ok ((List.range 16).map fun i =>
      let b := buf.getD i 0 % 256
      if i = 6 then (b &&& 0x0f) ||| 0x40
      else if i = 8 then (b &&& 0x3f) ||| 0x80
      else b)

/-- Model of `UUID.String` (the library helper `encodeHex`): the bytes in hex,
in groups of 4, 2, 2, 2 and 6, joined by `-`. -/
def encodeHex (u : List Nat) : String :=
  Lib.hexEncode (u.take 4) ++ "-" ++ Lib.hexEncode ((u.drop 4).take 2) ++ "-" ++
    Lib.hexEncode ((u.drop 6).take 2) ++ "-" ++ Lib.hexEncode ((u.drop 8).take 2) ++ "-" ++
    Lib.hexEncode ((u.drop 10).take 6)

end uuid

/-! ## `pkg/auth/auth.go` -/

def CookieTokenName : String := "token"
def sessionKeyID : String := "id"
def sessionKeyProvider : String := "provider"
def sessionKeyToken : String := "token"
def authState : String := "state"

/-- Go `type auth struct`: the provider registry. -/
structure auth where
  providers : List (String × oauth2.Config)

/-- The Go runtime message of a method call through a `nil` pointer. -/
def nilDereference : String :=
  "runtime error: invalid memory address or nil pointer dereference"

/-- Go `(*auth).AuthMiddleware()` applied to the handler `next`. -/
def auth.AuthMiddleware (env : Env) (a : auth) (next : Context → Context × Option String)
    (c : Context) : Context × Option String :=
  match sessionGet env CookieTokenName c with
  | .error err => (c.NoContent 500, some ("unable to get session: " ++ err))
  | .ok c =>
    match assertToken ((c.session env CookieTokenName).Values.lookup sessionKeyToken) with
    | none => (c.NoContent 401, some "unable to get token from session")
    | some token =>
      match assertString ((c.session env CookieTokenName).Values.lookup sessionKeyProvider) with
      | none => (c.NoContent 500, some "unable to find idp in session")
      | some idp =>
        match a.providers.lookup idp with
        | none =>
          (c.NoContent 500, some ("unable to find idp " ++ idp ++ " in configured providers"))
        | some p =>
          match tokenSourceToken env p token c with
          | (c, .error err) => (c.NoContent 401, some ("unable to get access token: " ++ err))
          | (c, .ok t) => next ((c.SetAuthHeader t).log Event.next)

/-- Go `(*auth).updateAuth(c)`, the handler of `PUT /auths/:state`. A method
call through a `nil` verifier ends the handler with the runtime message. -/
def auth.updateAuth (env : Env) (a : auth) (c : Context) : Context × Option String :=
  match c.request.body with
  | .error err => (c, some err)
  | .ok payload =>
    let state := c.Param "state"
    match sessionGet env state c with
    | .error err =>
      (c, some ("unable to retrieve authentication session " ++ state ++ ": " ++ err))
    | .ok c =>
      match assertAuthentication ((c.session env state).Values.lookup authState) with
      | none => (c, some "unable to read back authentication information from session")
      | some au =>
        match a.providers.lookup au.Idp with
        | none => (c, some ("unable to find idp: " ++ au.Idp))
        | some p =>
          match au.Verifier with
          | none => (c, some nilDereference)
          | some verifier =>
            let c := c.log (Event.exchange p payload.Code verifier.VerifierOptions)
            match env.exchange p payload.Code verifier.VerifierOptions with
            | .error err =>
              (c, some ("unable to retrive access token from identity provider: " ++ err))
            | .ok token =>
              match sessionGet env CookieTokenName c with
              | .error err => (c, some ("unable to get session for token: " ++ err))
              | .ok c =>
                let c := c.setOptions env CookieTokenName
                  { Secure := true, HttpOnly := true, SameSite := SameSite.strict,
                    Path := "/", MaxAge := 86400 * 30 }
                let c := c.setValue env CookieTokenName sessionKeyID (Value.string state)
                let c := c.setValue env CookieTokenName sessionKeyToken (Value.token token)
                let c := c.setValue env CookieTokenName sessionKeyProvider (Value.string au.Idp)
                match sessionSave env CookieTokenName c with
                | (c, some err) => (c, some ("unable to save token session cookie: " ++ err))
                | (c, none) =>
                  let c := c.setOptions env state { MaxAge := -1 }
                  match sessionSave env state c with
                  | (c, some err) => (c, some ("unable to remove auth session: " ++ err))
                  | (c, none) =>
                    (c.JSON 200 (Body.resource { Idp := au.Idp, Path := au.Path }), none)

/-- Go `(*auth).listAuth(c)`, the handler of `GET /auths`. -/
def auth.listAuth (env : Env) (_a : auth) (c : Context) : Context × Option String :=
  match sessionGet env CookieTokenName c with
  | .error err => (c.NoContent 500, some ("unable to get session: " ++ err))
  | .ok c =>
    let l : list := { Count := 0, Auths := [], Included := [] }
    match assertString ((c.session env CookieTokenName).Values.lookup sessionKeyID) with
    | none => (c.JSON 200 (Body.listing l), none)
    | some id =>
      match assertString ((c.session env CookieTokenName).Values.lookup sessionKeyProvider) with
      | none => (c.JSON 200 (Body.listing l), none)
      | some idp =>
        let l : list :=
          { Count := 1, Auths := l.Auths ++ ["id"], Included := [{ ID := id, Idp := idp }] }
        (c.JSON 200 (Body.listing l), none)

/-- Go `(*auth).delete(c)`, the handler of `DELETE /auths/:state`. -/
def auth.delete (env : Env) (_a : auth) (c : Context) : Context × Option String :=
  let state := c.Param "state"
  match sessionGet env CookieTokenName c with
  | .error err => (c.NoContent 500, some ("unable to get session: " ++ err))
  | .ok c =>
    match assertString ((c.session env CookieTokenName).Values.lookup sessionKeyID) with
    | none => (c.NoContent 404, none)
    | some id =>
      if id ≠ state then (c.NoContent 404, none)
      else
        let c := c.setOptions env CookieTokenName { MaxAge := -1 }
        match sessionSave env CookieTokenName c with
        | (c, some err) => (c, some ("unable to remove auth session: " ++ err))
        | (c, none) => (c.NoContent 204, none)

/-- Go `(*auth).createAuth(c)`, the handler of `POST /auths`. `rand n` is what
reading `n` bytes from `crypto/rand` gives; the handler reads 32 bytes for the
verifier, then 16 for the state. `uuid.New()` panics when its read fails, which
ends the handler with the message. -/
def auth.createAuth (env : Env) (a : auth) (rand : Nat → Except String (List Nat))
    (c : Context) : Context × Option String :=
  match c.request.body with
  | .error err => (c, some ("unable to parse payload: " ++ err))
  | .ok payload =>
    match pkce.NewCodeVerifier rand with
    | .error err => (c, some ("unable to create code verifier: " ++ err))
    | .ok codeVerifier =>
      let au : authentication :=
        { Verifier := some codeVerifier, Idp := payload.Idp, Path := payload.Path }
      match uuid.NewRandomFromReader rand with
      | .error err => (c, some ("panic: " ++ err))
      | .ok u =>
        let state := uuid.encodeHex u
        match sessionGet env state c with
        | .error err => (c, some err)
        | .ok c =>
          let c := c.setOptions env state
            { Secure := true, MaxAge := 300, HttpOnly := true, SameSite := SameSite.strict,
              Path := "/auths" }
          let c := c.setValue env state authState (Value.authentication au)
          match sessionSave env state c with
          | (c, some err) => (c, some ("unable to store authetication session: " ++ err))
          | (c, none) =>
            match a.providers.lookup au.Idp with
            | none => (c, some ("unable to find idp: " ++ au.Idp))
            | some p =>
              let payload : AuthResource :=
                { payload with
                  AuthorizationURL := p.AuthCodeURL state codeVerifier.CodeChallengeOptions }
              (c.JSON 201 (Body.resource payload), none)

/-! ## Concrete data: the setting of `auth_test.go` -/

namespace Example

/-- The provider configuration of the tests. -/
def myidp : oauth2.Config :=
  { ClientID := "client-id", ClientSecret := "client-secret",
    Endpoint := { AuthURL := "http://localhost", TokenURL := "http://localhost/token" },
    RedirectURL := "", Scopes := [] }

/-- The registry of the tests: the single provider `myidp`. -/
def handler : auth := { providers := [("myidp", myidp)] }

/-- The token the test server answers with. -/
def xyz : oauth2.Token :=
  { AccessToken := "xyz", TokenType := "Bearer", RefreshToken := "", Expiry := 0 }

/-- A token that expired at 500 s and carries a refresh token. -/
def stale : oauth2.Token :=
  { AccessToken := "old", TokenType := "Bearer", RefreshToken := "r1", Expiry := 500000000000 }

/-- The token the provider answers a refresh with. -/
def fresh : oauth2.Token :=
  { AccessToken := "new", TokenType := "Bearer", RefreshToken := "r2", Expiry := 5000000000000 }

/-- An unexpired token of type `MAC`. -/
def macToken : oauth2.Token :=
  { AccessToken := "xyz", TokenType := "MAC", RefreshToken := "", Expiry := 0 }

/-- An unexpired token without access token. -/
def blankToken : oauth2.Token :=
  { AccessToken := "", TokenType := "Bearer", RefreshToken := "", Expiry := 0 }

/-- A token that expires at 1005 s, five seconds after the clock reading of
`env`, without refresh token. -/
def soonToken : oauth2.Token :=
  { AccessToken := "xyz", TokenType := "Bearer", RefreshToken := "", Expiry := 1005000000000 }

/-- A token that expires at 1005 s and carries the refresh token `r1`. -/
def soonRefreshable : oauth2.Token :=
  { AccessToken := "xyz", TokenType := "Bearer", RefreshToken := "r1", Expiry := 1005000000000 }

/-- A token that expires at 1010 s, exactly ten seconds after the clock reading of `env`. -/
def marginToken : oauth2.Token :=
  { AccessToken := "xyz", TokenType := "Bearer", RefreshToken := "", Expiry := 1010000000000 }

/-- An environment at clock reading 1000 s: a store that does not fail, a
provider that accepts only the code `auth-code` and refreshes only `r1`. -/
def env : Env :=
  { now := 1000000000000,
    storeOptions := { Path := "/", MaxAge := 86400 * 30 },
    getErr := fun _ => none,
    saveErr := fun _ _ => none,
    exchange := fun _ code _ => if code = "auth-code" then .ok xyz else .error "invalid_grant",
    refresh := fun _ rt => if rt = "r1" then .ok fresh else .error "invalid_grant" }

/-- The same environment with a store that cannot decode the session cookie. -/
def brokenEnv : Env :=
  { env with getErr := fun _ => some "securecookie: the value is not valid" }

/-- The verifier of the pending authentication (RFC 7636, appendix B). -/
def verifier : pkce.CodeVerifier :=
  { Verifier := "dBjftJeZ4CVP-mB92K27uhbUJU1p1r_wW1gFWFOEjXk", Method := pkce.ChallengeMethodS256 }

/-- A pending authentication for `myidp`. -/
def pending : authentication :=
  { Idp := "myidp", Verifier := some verifier, Path := "/app" }

/-- A store holding one pending authentication under the state `st`. -/
def pendingStore : List (String × Stored) :=
  [("st", { values := [(authState, Value.authentication pending)],
            cookie := { Secure := true, MaxAge := 300, HttpOnly := true,
                        SameSite := SameSite.strict, Path := "/auths" } })]

/-- A store holding one pending authentication for a provider that is not registered. -/
def strangerStore : List (String × Stored) :=
  [("st", { values := [(authState, Value.authentication { pending with Idp := "other" })],
            cookie := { MaxAge := 300 } })]

/-- The cookie attributes of the authenticated session. -/
def sessionCookie : Options :=
  { Secure := true, HttpOnly := true, SameSite := SameSite.strict, Path := "/",
    MaxAge := 86400 * 30 }

/-- A store holding an authenticated session with id `st` and token `t`. -/
def sessionStore (t : oauth2.Token) : List (String × Stored) :=
  [(CookieTokenName,
    { values := [(sessionKeyProvider, Value.string "myidp"), (sessionKeyToken, Value.token t),
                 (sessionKeyID, Value.string "st")],
      cookie := sessionCookie })]

/-- A store whose session holds a token but no provider. -/
def noProviderStore : List (String × Stored) :=
  [(CookieTokenName,
    { values := [(sessionKeyToken, Value.token xyz), (sessionKeyID, Value.string "st")],
      cookie := sessionCookie })]

/-- A request `PUT /auths/:state` with the given code in its body. -/
def put (state code : String) : Request :=
  { params := [("state", state)], body := .ok { Idp := "myidp", Code := code },
    Authorization := none }

/-- A request without body, with the given `state` parameter. -/
def bare (state : String) : Request :=
  { params := [("state", state)], body := .ok {}, Authorization := none }

/-- A next handler that does nothing. -/
def done (c : Context) : Context × Option String := (c, none)

/-- An entropy source that delivers the bytes 0, 1, 2, ... -/
def counting (n : Nat) : Except String (List Nat) := .ok (List.range n)

/-- The request of `TestCreateAuth`: `POST /auths` with `{"idp": "myidp"}`. -/
def post : Request :=
  { params := [], body := .ok { Idp := "myidp" }, Authorization := none }

/-- The verifier that `NewCodeVerifier` makes of the counting source. -/
def countingVerifier : pkce.CodeVerifier :=
  { Verifier := "000102030405060708090a0b0c0d0e0f101112131415161718191a1b1c1d1e1f",
    Method := pkce.ChallengeMethodS256 }

/-- The UUID bytes that `uuid.New` makes of the counting source. -/
def countingUUID : List Nat :=
  [0, 1, 2, 3, 4, 5, 70, 7, 136, 9, 10, 11, 12, 13, 14, 15]

end Example

/-! ## Association lists as maps -/

theorem lookup_filter_self {α : Type} (m : List (String × α)) (k : String) :
    (m.filter fun e => e.1 != k).lookup k = none := by
  induction m with
  | nil => rfl
  | cons e m ih =>
    rcases e with ⟨k', v⟩
    by_cases h : k' = k
    · subst h
      simpa [List.filter_cons] using ih
    · have h' : (k == k') = false := by
        simpa using fun e : k = k' => h e.symm
      simp [List.filter_cons, h, List.lookup_cons, h', ih]

theorem lookup_filter_ne {α : Type} (m : List (String × α)) (k k' : String) (h : k' ≠ k) :
    (m.filter fun e => e.1 != k).lookup k' = m.lookup k' := by
  induction m with
  | nil => rfl
  | cons e m ih =>
    rcases e with ⟨k'', v⟩
    by_cases h1 : k'' = k
    · subst h1
      have h2 : (k' == k'') = false := by simpa using h
      simpa [List.filter_cons, List.lookup_cons, h2] using ih
    · by_cases h2 : k' = k''
      · subst h2
        simp [List.filter_cons, h1, List.lookup_cons]
      · have h3 : (k' == k'') = false := by simpa using h2
        simp [List.filter_cons, h1, List.lookup_cons, h3, ih]

theorem lookup_mapSet_self {α : Type} (m : List (String × α)) (k : String) (v : α) :
    (mapSet m k v).lookup k = some v := by
  simp [mapSet, List.lookup]

theorem lookup_mapSet_ne {α : Type} (m : List (String × α)) (k k' : String) (v : α)
    (h : k' ≠ k) : (mapSet m k v).lookup k' = m.lookup k' := by
  have h' : (k' == k) = false := by simpa using h
  simp [mapSet, List.lookup_cons, h', lookup_filter_ne m k k' h]

theorem lookup_mapErase_self {α : Type} (m : List (String × α)) (k : String) :
    (mapErase m k).lookup k = none :=
  lookup_filter_self m k

theorem lookup_mapErase_ne {α : Type} (m : List (String × α)) (k k' : String) (h : k' ≠ k) :
    (mapErase m k).lookup k' = m.lookup k' :=
  lookup_filter_ne m k k' h

/-! ## Sessions, session pointers and saves -/

theorem newContext_request (req : Request) (store : List (String × Stored)) :
    (newContext req store).request = req := rfl

theorem sessionGet_newContext (env : Env) (name : String) (req : Request)
    (store : List (String × Stored)) (h : env.getErr name = none) :
    sessionGet env name (newContext req store) =
      .ok { request := req, response := [], registry := [(name, loadSession env store name)],
            store := store, trace := [] } := by
  simp [sessionGet, newContext, h]

theorem session_registered (env : Env) (name : String) (s : Session) (req : Request)
    (resp : List Response) (store : List (String × Stored)) (tr : List Event) :
    Context.session env { request := req, response := resp, registry := [(name, s)],
                          store := store, trace := tr } name = s := by
  simp [Context.session]

theorem sessionGet_fields (env : Env) (name : String) (c c' : Context)
    (h : sessionGet env name c = .ok c') :
    c'.store = c.store ∧ c'.trace = c.trace ∧ c'.response = c.response ∧
      c'.request = c.request := by
  unfold sessionGet at h
  split at h
  · cases h
    exact ⟨rfl, rfl, rfl, rfl⟩
  · split at h
    · cases h
    · cases h
      exact ⟨rfl, rfl, rfl, rfl⟩

theorem sessionGet_ok (env : Env) (name : String) (c : Context)
    (h : env.getErr name = none) : ∃ c', sessionGet env name c = .ok c' := by
  unfold sessionGet
  split
  · exact ⟨_, rfl⟩
  · simp [h]

theorem session_setOptions_self (env : Env) (c : Context) (name : String) (o : Options) :
    (c.setOptions env name o).session env name = { c.session env name with Options := o } := by
  simp [Context.setOptions, Context.session, lookup_mapSet_self]

theorem session_setValue_self (env : Env) (c : Context) (name key : String) (v : Value) :
    (c.setValue env name key v).session env name =
      { c.session env name with Values := mapSet (c.session env name).Values key v } := by
  simp [Context.setValue, Context.session, lookup_mapSet_self]

theorem setValue_store (env : Env) (c : Context) (name key : String) (v : Value) :
    (c.setValue env name key v).store = c.store := rfl

theorem setValue_trace (env : Env) (c : Context) (name key : String) (v : Value) :
    (c.setValue env name key v).trace = c.trace := rfl

theorem setValue_response (env : Env) (c : Context) (name key : String) (v : Value) :
    (c.setValue env name key v).response = c.response := rfl

theorem setOptions_store (env : Env) (c : Context) (name : String) (o : Options) :
    (c.setOptions env name o).store = c.store := rfl

theorem setOptions_trace (env : Env) (c : Context) (name : String) (o : Options) :
    (c.setOptions env name o).trace = c.trace := rfl

theorem setOptions_response (env : Env) (c : Context) (name : String) (o : Options) :
    (c.setOptions env name o).response = c.response := rfl

theorem sessionSave_ok (env : Env) (name : String) (c : Context)
    (h : env.saveErr name (c.session env name) = none) :
    sessionSave env name c =
      ({ request := c.request, response := c.response, registry := c.registry,
         store := if (c.session env name).Options.MaxAge ≤ 0 then mapErase c.store name
                  else mapSet c.store name
                    { values := (c.session env name).Values,
                      cookie := (c.session env name).Options },
         trace := c.trace ++ [Event.save name (c.session env name) true] }, none) := by
  simp [sessionSave, h, Context.log]

theorem sessionSave_inv (env : Env) (name : String) (c c' : Context) (e : Option String)
    (h : sessionSave env name c = (c', e)) :
    c'.response = c.response ∧
    (e = none → env.saveErr name (c.session env name) = none ∧
      c'.trace = c.trace ++ [Event.save name (c.session env name) true] ∧
      c'.store = if (c.session env name).Options.MaxAge ≤ 0 then mapErase c.store name
                 else mapSet c.store name
                   { values := (c.session env name).Values,
                     cookie := (c.session env name).Options }) := by
  cases hs : env.saveErr name (c.session env name) with
  | some err =>
    simp only [sessionSave, hs] at h
    cases h
    exact ⟨rfl, fun e => by cases e⟩
  | none =>
    simp only [sessionSave, hs] at h
    cases h
    exact ⟨rfl, fun _ => ⟨rfl, rfl, rfl⟩⟩

/-! ## Tokens -/

theorem valid_false_of_expired (now : Int) (t : oauth2.Token) (h : t.expired now = true) :
    t.Valid now = false := by
  simp [oauth2.Token.Valid, h]

theorem type_bearer (t : oauth2.Token)
    (h : t.TokenType = "" ∨ oauth2.equalFold t.TokenType "bearer" = true) :
    t.Type = "Bearer" := by
  rcases h with h | h
  · simp [oauth2.Token.Type, h, oauth2.equalFold]
  · simp [oauth2.Token.Type, h]

/-! ## `updateAuth`: what a call that returns `nil` has done -/

theorem updateAuth_none_inv (env : Env) (a : auth) (req : Request)
    (store : List (String × Stored))
    (h : (a.updateAuth env (newContext req store)).2 = none) :
    env.getErr ((newContext req store).Param "state") = none ∧
    (∃ au, assertAuthentication
      ((loadSession env store ((newContext req store).Param "state")).Values.lookup authState)
        = some au) ∧
    (a.updateAuth env (newContext req store)).1.store.lookup
      ((newContext req store).Param "state") = none ∧
    ∃ s, Event.save ((newContext req store).Param "state") s true ∈
        (a.updateAuth env (newContext req store)).1.trace ∧
      s.Options = { MaxAge := -1 } := by
  generalize hst : (newContext req store).Param "state" = state at *
  cases hb : req.body with
  | error e => simp [auth.updateAuth, newContext_request, hb] at h
  | ok payload =>
  cases hg : env.getErr state with
  | some e =>
    have hget : sessionGet env state (newContext req store) = .error e := by
      simp [sessionGet, newContext, hg]
    simp [auth.updateAuth, newContext_request, hb, hst, hget] at h
  | none =>
  cases hau : assertAuthentication ((loadSession env store state).Values.lookup authState) with
  | none =>
    simp [auth.updateAuth, newContext_request, hb, hst, sessionGet_newContext, hg,
      session_registered, hau] at h
  | some au =>
  cases hp : a.providers.lookup au.Idp with
  | none =>
    simp [auth.updateAuth, newContext_request, hb, hst, sessionGet_newContext, hg,
      session_registered, hau, hp] at h
  | some p =>
  cases hv : au.Verifier with
  | none =>
    simp [auth.updateAuth, newContext_request, hb, hst, sessionGet_newContext, hg,
      session_registered, hau, hp, hv] at h
  | some v =>
  cases hex : env.exchange p payload.Code v.VerifierOptions with
  | error e =>
    simp [auth.updateAuth, newContext_request, hb, hst, sessionGet_newContext, hg,
      session_registered, hau, hp, hv, hex] at h
  | ok t =>
  obtain ⟨c3, h3⟩ : ∃ c3, sessionGet env CookieTokenName
      (Context.log
        { request := req, response := [], registry := [(state, loadSession env store state)],
          store := store, trace := [] }
        (Event.exchange p payload.Code v.VerifierOptions)) = .ok c3 := by
    cases h3 : sessionGet env CookieTokenName
      (Context.log
        { request := req, response := [], registry := [(state, loadSession env store state)],
          store := store, trace := [] }
        (Event.exchange p payload.Code v.VerifierOptions)) with
    | error e =>
      simp [auth.updateAuth, newContext_request, hb, hst, sessionGet_newContext, hg,
        session_registered, hau, hp, hv, hex, h3] at h
    | ok c3 => exact ⟨c3, rfl⟩
  rcases h5 : sessionSave env CookieTokenName
    (Context.setValue env (Context.setValue env (Context.setValue env
      (Context.setOptions env c3 CookieTokenName
        { Secure := true, HttpOnly := true, SameSite := SameSite.strict, Path := "/",
          MaxAge := 86400 * 30 })
      CookieTokenName sessionKeyID (Value.string state))
      CookieTokenName sessionKeyToken (Value.token t))
      CookieTokenName sessionKeyProvider (Value.string au.Idp)) with ⟨c5, e5⟩
  cases e5 with
  | some e =>
    simp only [auth.updateAuth, newContext_request, hb, hst, sessionGet_newContext, hg,
      session_registered, hau, hp, hv, hex, h3, h5] at h
    cases h
  | none =>
  rcases h6 : sessionSave env state (Context.setOptions env c5 state { MaxAge := -1 })
    with ⟨c6, e6⟩
  cases e6 with
  | some e =>
    simp only [auth.updateAuth, newContext_request, hb, hst, sessionGet_newContext, hg,
      session_registered, hau, hp, hv, hex, h3, h5, h6] at h
    cases h
  | none =>
  obtain ⟨-, h6'⟩ := sessionSave_inv _ _ _ _ _ h6
  obtain ⟨-, h6t, h6s⟩ := h6' rfl
  simp only [session_setOptions_self, setOptions_store, setOptions_trace] at h6t h6s
  have hres : a.updateAuth env (newContext req store) =
      (c6.JSON 200 (Body.resource { Idp := au.Idp, Path := au.Path }), none) := by
    simp only [auth.updateAuth, newContext_request, hb, hst, sessionGet_newContext, hg,
      session_registered, hau, hp, hv, hex, h3, h5, h6]
  rw [hres]
  refine ⟨rfl, ⟨au, rfl⟩, ?_, ?_⟩
  · simp [Context.JSON, h6s, lookup_mapErase_self]
  · refine ⟨Session.mk (Context.session env c5 state).Values { MaxAge := -1 }, ?_, rfl⟩
    simp [Context.JSON, h6t]

open Example

/-! ## C1: the pending record after `updateAuth` -/

/-- C1 (amended). For every `updateAuth` call that finds a pending
authentication under the given state: if the call returns `nil`, the pending
session has been saved with `Options{MaxAge: -1}` and the store holds no
record under the state any more; if the provider lookup fails, or if the code
exchange fails, the call returns its error before any save, the store
unchanged. -/
theorem updateAuth_invalidates_on_success (env : Env) (a : auth) (req : Request)
    (store : List (String × Stored)) (payload : AuthResource) (au : authentication)
    (hbody : req.body = .ok payload)
    (hget : env.getErr ((newContext req store).Param "state") = none)
    (hau : assertAuthentication
      ((loadSession env store ((newContext req store).Param "state")).Values.lookup authState)
      = some au) :
    ((a.updateAuth env (newContext req store)).2 = none →
      (∃ s, Event.save ((newContext req store).Param "state") s true ∈
          (a.updateAuth env (newContext req store)).1.trace ∧
        s.Options = { MaxAge := -1 }) ∧
      (a.updateAuth env (newContext req store)).1.store.lookup
        ((newContext req store).Param "state") = none) ∧
    (a.providers.lookup au.Idp = none →
      a.updateAuth env (newContext req store) =
        ({ request := req, response := [],
           registry := [((newContext req store).Param "state",
                         loadSession env store ((newContext req store).Param "state"))],
           store := store, trace := [] },
         some ("unable to find idp: " ++ au.Idp))) ∧
    (∀ (p : oauth2.Config) (v : pkce.CodeVerifier) (err : String),
      a.providers.lookup au.Idp = some p → au.Verifier = some v →
      env.exchange p payload.Code v.VerifierOptions = .error err →
      a.updateAuth env (newContext req store) =
        ({ request := req, response := [],
           registry := [((newContext req store).Param "state",
                         loadSession env store ((newContext req store).Param "state"))],
           store := store, trace := [Event.exchange p payload.Code v.VerifierOptions] },
         some ("unable to retrive access token from identity provider: " ++ err))) := by
  refine ⟨fun h => ?_, fun hp => ?_, fun p v err hp hv hex => ?_⟩
  · obtain ⟨-, -, hgone, hsaved⟩ := updateAuth_none_inv env a req store h
    exact ⟨hsaved, hgone⟩
  · generalize hst : (newContext req store).Param "state" = state at *
    simp [auth.updateAuth, newContext_request, hbody, hst, sessionGet_newContext, hget,
      session_registered, hau, hp]
  · generalize hst : (newContext req store).Param "state" = state at *
    simp [auth.updateAuth, newContext_request, hbody, hst, sessionGet_newContext, hget,
      session_registered, hau, hp, hv, hex, Context.log]

/-- C1 at the successful flow of the tests: the pending session `st` is saved
with `MaxAge: -1` and is gone from the store. -/
theorem updateAuth_invalidates_on_success_witness :
    (∃ s, Event.save ((newContext (put "st" "auth-code") pendingStore).Param "state") s true ∈
        (handler.updateAuth env (newContext (put "st" "auth-code") pendingStore)).1.trace ∧
      s.Options = { MaxAge := -1 }) ∧
    (handler.updateAuth env (newContext (put "st" "auth-code") pendingStore)).1.store.lookup
      ((newContext (put "st" "auth-code") pendingStore).Param "state") = none :=
  (updateAuth_invalidates_on_success env handler (put "st" "auth-code") pendingStore
    { Idp := "myidp", Code := "auth-code" } pending rfl rfl rfl).1 (by decide)

/-- C1 as stated fails. With the pending authentication `st` in the store and
a code the provider refuses, `updateAuth` fails, saves nothing, and the pending
authentication is still stored under `st`; the same when the provider of the
pending authentication is not registered. -/
theorem updateAuth_leaves_pending_on_failure :
    (assertAuthentication ((loadSession env pendingStore "st").Values.lookup authState)
        = some pending ∧
      (handler.updateAuth env (newContext (put "st" "bad") pendingStore)).2 =
        some "unable to retrive access token from identity provider: invalid_grant" ∧
      (handler.updateAuth env (newContext (put "st" "bad") pendingStore)).1.trace =
        [Event.exchange myidp "bad" verifier.VerifierOptions] ∧
      assertAuthentication ((loadSession env
        (handler.updateAuth env (newContext (put "st" "bad") pendingStore)).1.store
        "st").Values.lookup authState) = some pending) ∧
    (assertAuthentication ((loadSession env strangerStore "st").Values.lookup authState)
        = some { pending with Idp := "other" } ∧
      (handler.updateAuth env (newContext (put "st" "auth-code") strangerStore)).2 =
        some "unable to find idp: other" ∧
      (handler.updateAuth env (newContext (put "st" "auth-code") strangerStore)).1.trace = [] ∧
      assertAuthentication ((loadSession env
        (handler.updateAuth env (newContext (put "st" "auth-code") strangerStore)).1.store
        "st").Values.lookup authState) = some { pending with Idp := "other" }) := by
  decide

/-! ## C2: refresh in the middleware -/

/-- C2 (amended). For every session holding an expired token with a refresh
token and a registered idp, when the refresh at the provider succeeds with a
new token, `AuthMiddleware` makes exactly that one refresh call and hands the
next handler a request whose `Authorization` header carries the new token;
it saves nothing: the store and the session, the stored token included, are
the same as before the request. -/
theorem authMiddleware_refresh (env : Env) (a : auth)
    (next : Context → Context × Option String) (req : Request)
    (store : List (String × Stored)) (tok t' : oauth2.Token) (idp : String) (p : oauth2.Config)
    (hget : env.getErr CookieTokenName = none)
    (htok : assertToken ((loadSession env store CookieTokenName).Values.lookup sessionKeyToken)
      = some tok)
    (hidp : assertString ((loadSession env store CookieTokenName).Values.lookup sessionKeyProvider)
      = some idp)
    (hp : a.providers.lookup idp = some p)
    (hexp : tok.expired env.now = true) (hrt : tok.RefreshToken ≠ "")
    (href : env.refresh p tok.RefreshToken = .ok t') :
    a.AuthMiddleware env next (newContext req store) =
      next { request := { req with Authorization := some (t'.Type ++ " " ++ t'.AccessToken) },
             response := [],
             registry := [(CookieTokenName, loadSession env store CookieTokenName)],
             store := store,
             trace := [Event.refresh p tok.RefreshToken, Event.next] } := by
  simp [auth.AuthMiddleware, sessionGet_newContext, hget, session_registered, htok, hidp, hp,
    tokenSourceToken, valid_false_of_expired, hexp, hrt, href, Context.SetAuthHeader, Context.log]

/-- C2 at a session whose token expired at 500 s, the clock at 1000 s. -/
theorem authMiddleware_refresh_witness :
    handler.AuthMiddleware env done (newContext (bare "") (sessionStore stale)) =
      done { request := { bare "" with
                          Authorization := some (fresh.Type ++ " " ++ fresh.AccessToken) },
             response := [],
             registry := [(CookieTokenName, loadSession env (sessionStore stale) CookieTokenName)],
             store := sessionStore stale,
             trace := [Event.refresh myidp stale.RefreshToken, Event.next] } :=
  authMiddleware_refresh env handler done (bare "") (sessionStore stale) stale fresh "myidp"
    myidp rfl rfl rfl rfl (by decide) (by decide) rfl

/-- C2 as stated fails. The session holds an expired token with a refresh
token, the refresh succeeds with a new token, the request goes on with
`Bearer new`, and the token stored in the session after the request is still
the expired one. -/
theorem authMiddleware_does_not_persist :
    stale.expired env.now = true ∧ stale.RefreshToken = "r1" ∧
    env.refresh myidp "r1" = .ok fresh ∧
    (handler.AuthMiddleware env done
      (newContext (bare "") (sessionStore stale))).1.request.Authorization = some "Bearer new" ∧
    (handler.AuthMiddleware env done (newContext (bare "") (sessionStore stale))).1.trace =
      [Event.refresh myidp "r1", Event.next] ∧
    assertToken ((loadSession env
      (handler.AuthMiddleware env done (newContext (bare "") (sessionStore stale))).1.store
      CookieTokenName).Values.lookup sessionKeyToken) = some stale ∧
    assertToken (((handler.AuthMiddleware env done
      (newContext (bare "") (sessionStore stale))).1.session env
      CookieTokenName).Values.lookup sessionKeyToken) = some stale ∧
    stale ≠ fresh := by
  refine ⟨by decide, rfl, rfl, by decide, by decide, by decide, by decide, by decide⟩

/-! ## C3: `listAuth` -/

theorem listAuth_general (env : Env) (a : auth) (req : Request) (store : List (String × Stored))
    (id idp : String)
    (hget : env.getErr CookieTokenName = none)
    (hid : assertString ((loadSession env store CookieTokenName).Values.lookup sessionKeyID)
      = some id)
    (hidp : assertString ((loadSession env store CookieTokenName).Values.lookup sessionKeyProvider)
      = some idp) :
    a.listAuth env (newContext req store) =
      ({ request := req,
         response := [{ status := 200,
                        body := Body.listing { Count := 1, Auths := ["id"],
                                               Included := [{ ID := id, Idp := idp }] } }],
         registry := [(CookieTokenName, loadSession env store CookieTokenName)],
         store := store, trace := [] }, none) := by
  simp [auth.listAuth, sessionGet_newContext, hget, session_registered, hid, hidp, Context.JSON]

/-- C3 at a session with id `st` and provider `myidp`: `listAuth` answers 200
with count 1, and the single element of the id list is the literal `id`, not
the session id `st` (which appears in the included resource only). -/
theorem listAuth_ids_literal :
    (handler.listAuth env (newContext (bare "") (sessionStore xyz))).1.response =
      [{ status := 200,
         body := Body.listing { Count := 1, Auths := ["id"],
                                Included := [{ ID := "st", Idp := "myidp" }] } }] ∧
    assertString ((loadSession env (sessionStore xyz) CookieTokenName).Values.lookup sessionKeyID)
      = some "st" ∧
    ["id"] ≠ ["st"] := by
  decide

/-! ## C4: the successful `updateAuth` -/

/-- C4. For every state, code and store in which a pending authentication
`{idp, verifier, path}` is stored under the state, the idp is registered and
the exchange of the code with the verifier succeeds with token `t` (the store
answering its gets and saves): `updateAuth` returns `nil`, responds 200 with
`{idp, path}` of the pending record, and saves under the cookie name `token` a
session holding id = state, provider = idp, token = `t`, with options secure,
http-only, strict same-site, path `/`, max age 2592000; unless the state is
itself `token`, that session is what the store holds under `token` afterwards. -/
theorem updateAuth_success (env : Env) (a : auth) (req : Request)
    (store : List (String × Stored)) (payload : AuthResource) (au : authentication)
    (p : oauth2.Config) (v : pkce.CodeVerifier) (t : oauth2.Token)
    (hbody : req.body = .ok payload)
    (hget : env.getErr ((newContext req store).Param "state") = none)
    (hau : assertAuthentication
      ((loadSession env store ((newContext req store).Param "state")).Values.lookup authState)
      = some au)
    (hp : a.providers.lookup au.Idp = some p)
    (hv : au.Verifier = some v)
    (hex : env.exchange p payload.Code v.VerifierOptions = .ok t)
    (hgett : env.getErr CookieTokenName = none)
    (hsavet : ∀ s, env.saveErr CookieTokenName s = none)
    (hsave : ∀ s, env.saveErr ((newContext req store).Param "state") s = none) :
    (a.updateAuth env (newContext req store)).2 = none ∧
    (a.updateAuth env (newContext req store)).1.response =
      [{ status := 200, body := Body.resource { Idp := au.Idp, Path := au.Path } }] ∧
    ∃ ts : Session,
      Event.save CookieTokenName ts true ∈ (a.updateAuth env (newContext req store)).1.trace ∧
      assertString (ts.Values.lookup sessionKeyID) = some ((newContext req store).Param "state") ∧
      assertString (ts.Values.lookup sessionKeyProvider) = some au.Idp ∧
      assertToken (ts.Values.lookup sessionKeyToken) = some t ∧
      ts.Options = { Secure := true, HttpOnly := true, SameSite := SameSite.strict, Path := "/",
                     MaxAge := 2592000 } ∧
      ((newContext req store).Param "state" ≠ CookieTokenName →
        (a.updateAuth env (newContext req store)).1.store.lookup CookieTokenName =
          some { values := ts.Values, cookie := ts.Options }) := by
  generalize hst : (newContext req store).Param "state" = state at *
  obtain ⟨c3, h3⟩ := sessionGet_ok env CookieTokenName
    (Context.log
      { request := req, response := [], registry := [(state, loadSession env store state)],
        store := store, trace := [] }
      (Event.exchange p payload.Code v.VerifierOptions)) hgett
  obtain ⟨hs3, ht3, hr3, -⟩ := sessionGet_fields _ _ _ _ h3
  simp only [Context.log] at hs3 ht3 hr3
  simp only [auth.updateAuth, newContext_request, hbody, hst, sessionGet_newContext, hget,
    session_registered, hau, hp, hv, hex, h3, sessionSave_ok, hsavet, hsave,
    session_setValue_self, session_setOptions_self, setValue_store, setValue_trace,
    setValue_response, setOptions_store, setOptions_trace, setOptions_response, hs3, ht3, hr3,
    Context.JSON]
  refine ⟨trivial, by simp,
    ⟨Session.mk
      (mapSet (mapSet (mapSet (Context.session env c3 CookieTokenName).Values
        sessionKeyID (Value.string state)) sessionKeyToken (Value.token t))
        sessionKeyProvider (Value.string au.Idp))
      (Options.mk "/" "" (86400 * 30) true true SameSite.strict),
     by simp, ?_, ?_, ?_, ?_, ?_⟩⟩
  · rw [lookup_mapSet_ne _ _ _ _ (by decide), lookup_mapSet_ne _ _ _ _ (by decide),
      lookup_mapSet_self]
    rfl
  · rw [lookup_mapSet_self]
    rfl
  · rw [lookup_mapSet_ne _ _ _ _ (by decide), lookup_mapSet_self]
    rfl
  · simp
  · intro hne
    have hne' : CookieTokenName ≠ state := fun e => hne e.symm
    simp [lookup_mapErase_ne _ _ _ hne', lookup_mapSet_self]

/-- C4 at the flow of `TestUpdateAuth`. -/
theorem updateAuth_success_witness :
    (handler.updateAuth env (newContext (put "st" "auth-code") pendingStore)).2 = none ∧
    (handler.updateAuth env (newContext (put "st" "auth-code") pendingStore)).1.response =
      [{ status := 200, body := Body.resource { Idp := pending.Idp, Path := pending.Path } }] ∧
    ∃ ts : Session,
      Event.save CookieTokenName ts true ∈
        (handler.updateAuth env (newContext (put "st" "auth-code") pendingStore)).1.trace ∧
      assertString (ts.Values.lookup sessionKeyID) =
        some ((newContext (put "st" "auth-code") pendingStore).Param "state") ∧
      assertString (ts.Values.lookup sessionKeyProvider) = some pending.Idp ∧
      assertToken (ts.Values.lookup sessionKeyToken) = some xyz ∧
      ts.Options = { Secure := true, HttpOnly := true, SameSite := SameSite.strict, Path := "/",
                     MaxAge := 2592000 } ∧
      ((newContext (put "st" "auth-code") pendingStore).Param "state" ≠ CookieTokenName →
        (handler.updateAuth env
          (newContext (put "st" "auth-code") pendingStore)).1.store.lookup CookieTokenName =
          some { values := ts.Values, cookie := ts.Options }) :=
  updateAuth_success env handler (put "st" "auth-code") pendingStore
    { Idp := "myidp", Code := "auth-code" } pending myidp verifier xyz
    rfl rfl rfl rfl rfl rfl rfl (fun _ => rfl) (fun _ => rfl)

/-! ## C5: a failed exchange -/

/-- C5. For every `updateAuth` call in which the code exchange with the
provider fails, the call returns the exchange error, and no authenticated
session is created: the only call traced is the exchange (no save at all), the
store is unchanged, nothing is written to the response, and the session under
the cookie name `token` is the one the store held before the call. -/
theorem updateAuth_exchange_failure (env : Env) (a : auth) (req : Request)
    (store : List (String × Stored)) (payload : AuthResource) (au : authentication)
    (p : oauth2.Config) (v : pkce.CodeVerifier) (err : String)
    (hbody : req.body = .ok payload)
    (hget : env.getErr ((newContext req store).Param "state") = none)
    (hau : assertAuthentication
      ((loadSession env store ((newContext req store).Param "state")).Values.lookup authState)
      = some au)
    (hp : a.providers.lookup au.Idp = some p)
    (hv : au.Verifier = some v)
    (hex : env.exchange p payload.Code v.VerifierOptions = .error err) :
    (a.updateAuth env (newContext req store)).2 =
      some ("unable to retrive access token from identity provider: " ++ err) ∧
    (a.updateAuth env (newContext req store)).1.store = store ∧
    (a.updateAuth env (newContext req store)).1.trace =
      [Event.exchange p payload.Code v.VerifierOptions] ∧
    (a.updateAuth env (newContext req store)).1.response = [] ∧
    (a.updateAuth env (newContext req store)).1.session env CookieTokenName =
      loadSession env store CookieTokenName := by
  generalize hst : (newContext req store).Param "state" = state at *
  have hres : a.updateAuth env (newContext req store) =
      ({ request := req, response := [], registry := [(state, loadSession env store state)],
         store := store, trace := [Event.exchange p payload.Code v.VerifierOptions] },
       some ("unable to retrive access token from identity provider: " ++ err)) := by
    simp [auth.updateAuth, newContext_request, hbody, hst, sessionGet_newContext, hget,
      session_registered, hau, hp, hv, hex, Context.log]
  rw [hres]
  refine ⟨rfl, rfl, rfl, rfl, ?_⟩
  by_cases hs : CookieTokenName = state
  · subst hs
    simp [Context.session]
  · have hs' : (CookieTokenName == state) = false := by simpa using hs
    simp [Context.session, List.lookup_cons, hs']

/-- C5 at a code the provider refuses. -/
theorem updateAuth_exchange_failure_witness :
    (handler.updateAuth env (newContext (put "st" "bad") pendingStore)).2 =
      some ("unable to retrive access token from identity provider: " ++ "invalid_grant") ∧
    (handler.updateAuth env (newContext (put "st" "bad") pendingStore)).1.store = pendingStore ∧
    (handler.updateAuth env (newContext (put "st" "bad") pendingStore)).1.trace =
      [Event.exchange myidp "bad" verifier.VerifierOptions] ∧
    (handler.updateAuth env (newContext (put "st" "bad") pendingStore)).1.response = [] ∧
    (handler.updateAuth env (newContext (put "st" "bad") pendingStore)).1.session env
      CookieTokenName = loadSession env pendingStore CookieTokenName :=
  updateAuth_exchange_failure env handler (put "st" "bad") pendingStore
    { Idp := "myidp", Code := "bad" } pending myidp verifier "invalid_grant"
    rfl rfl rfl rfl rfl rfl

/-! ## C6: a state is single-use -/

/-- C6. `updateAuth` returns `nil` only if a pending authentication is stored
under the given state; and for every store and state on which it returns `nil`,
a second `updateAuth` with the same state, on the store the first call left,
fails with "unable to read back authentication information from session" (the
InvalidState failure), with an empty trace (no exchange, no save), no response
written, and the store, the authenticated session with it, unchanged. The
second call may come with any body that binds, any registry and any
environment whose store hands out the session of the state. -/
theorem updateAuth_single_use (env env2 : Env) (a a2 : auth) (req req2 : Request)
    (store : List (String × Stored)) (payload2 : AuthResource)
    (h1 : (a.updateAuth env (newContext req store)).2 = none)
    (hstate : (newContext req2 (a.updateAuth env (newContext req store)).1.store).Param "state" =
      (newContext req store).Param "state")
    (hbody2 : req2.body = .ok payload2)
    (hget2 : env2.getErr ((newContext req store).Param "state") = none) :
    (∃ au, assertAuthentication
      ((loadSession env store ((newContext req store).Param "state")).Values.lookup authState)
        = some au) ∧
    a2.updateAuth env2 (newContext req2 (a.updateAuth env (newContext req store)).1.store) =
      ({ request := req2, response := [],
         registry := [((newContext req store).Param "state",
                       { Values := [], Options := env2.storeOptions })],
         store := (a.updateAuth env (newContext req store)).1.store,
         trace := [] },
       some "unable to read back authentication information from session") := by
  obtain ⟨-, hau, hgone, -⟩ := updateAuth_none_inv env a req store h1
  refine ⟨hau, ?_⟩
  generalize (a.updateAuth env (newContext req store)).1.store = store1 at *
  generalize (newContext req store).Param "state" = state at *
  have hload : loadSession env2 store1 state = { Values := [], Options := env2.storeOptions } := by
    simp [loadSession, hgone]
  simp [auth.updateAuth, newContext_request, hbody2, hstate, sessionGet_newContext, hget2,
    session_registered, hload, assertAuthentication]

/-- C6 at the flow of the tests, repeated. -/
theorem updateAuth_single_use_witness :
    (∃ au, assertAuthentication
      ((loadSession env pendingStore
        ((newContext (put "st" "auth-code") pendingStore).Param "state")).Values.lookup authState)
        = some au) ∧
    handler.updateAuth env (newContext (put "st" "auth-code")
        (handler.updateAuth env (newContext (put "st" "auth-code") pendingStore)).1.store) =
      ({ request := put "st" "auth-code", response := [],
         registry := [((newContext (put "st" "auth-code") pendingStore).Param "state",
                       { Values := [], Options := env.storeOptions })],
         store := (handler.updateAuth env (newContext (put "st" "auth-code") pendingStore)).1.store,
         trace := [] },
       some "unable to read back authentication information from session") :=
  updateAuth_single_use env env handler handler (put "st" "auth-code") (put "st" "auth-code")
    pendingStore { Idp := "myidp", Code := "auth-code" } (by decide) rfl rfl rfl

/-! ## C7: `delete` -/

/-- C7. For every store (answering its gets and saves) and every supplied
state: if the session under `token` holds an id equal to the state, `delete`
saves it with `MaxAge: -1`, which removes it from the store, and answers 204;
otherwise (no session, no id, or another id) it answers 404, saves nothing and
leaves the store unchanged, so that `listAuth` afterwards answers as before;
hence it answers 204 if and only if the session id equals the state. -/
theorem delete_iff_bound (env : Env) (a : auth) (req : Request) (store : List (String × Stored))
    (hget : env.getErr CookieTokenName = none)
    (hsave : ∀ s, env.saveErr CookieTokenName s = none) :
    (assertString ((loadSession env store CookieTokenName).Values.lookup sessionKeyID)
        = some ((newContext req store).Param "state") →
      a.delete env (newContext req store) =
        ({ request := req, response := [{ status := 204, body := Body.empty }],
           registry := [(CookieTokenName,
             { loadSession env store CookieTokenName with Options := { MaxAge := -1 } })],
           store := mapErase store CookieTokenName,
           trace := [Event.save CookieTokenName
             { loadSession env store CookieTokenName with Options := { MaxAge := -1 } } true] },
         none) ∧
      (a.delete env (newContext req store)).1.store.lookup CookieTokenName = none) ∧
    (assertString ((loadSession env store CookieTokenName).Values.lookup sessionKeyID)
        ≠ some ((newContext req store).Param "state") →
      a.delete env (newContext req store) =
        ({ request := req, response := [{ status := 404, body := Body.empty }],
           registry := [(CookieTokenName, loadSession env store CookieTokenName)],
           store := store, trace := [] }, none) ∧
      ∀ (env' : Env) (a' : auth) (req' : Request),
        a'.listAuth env' (newContext req' (a.delete env (newContext req store)).1.store) =
          a'.listAuth env' (newContext req' store)) ∧
    ((a.delete env (newContext req store)).1.response = [{ status := 204, body := Body.empty }] ↔
      assertString ((loadSession env store CookieTokenName).Values.lookup sessionKeyID)
        = some ((newContext req store).Param "state")) := by
  have hyes : assertString ((loadSession env store CookieTokenName).Values.lookup sessionKeyID)
        = some ((newContext req store).Param "state") →
      a.delete env (newContext req store) =
        ({ request := req, response := [{ status := 204, body := Body.empty }],
           registry := [(CookieTokenName,
             { loadSession env store CookieTokenName with Options := { MaxAge := -1 } })],
           store := mapErase store CookieTokenName,
           trace := [Event.save CookieTokenName
             { loadSession env store CookieTokenName with Options := { MaxAge := -1 } } true] },
         none) := by
    intro h
    simp [auth.delete, sessionGet_newContext, hget, session_registered, h, Context.setOptions,
      mapSet, sessionSave, hsave, Context.log, Context.NoContent]
  have hno : assertString ((loadSession env store CookieTokenName).Values.lookup sessionKeyID)
        ≠ some ((newContext req store).Param "state") →
      a.delete env (newContext req store) =
        ({ request := req, response := [{ status := 404, body := Body.empty }],
           registry := [(CookieTokenName, loadSession env store CookieTokenName)],
           store := store, trace := [] }, none) := by
    intro h
    cases hid : assertString
        ((loadSession env store CookieTokenName).Values.lookup sessionKeyID) with
    | none =>
      simp [auth.delete, sessionGet_newContext, hget, session_registered, hid, Context.NoContent]
    | some id =>
      have hne : id ≠ (newContext req store).Param "state" := by
        intro e
        exact h (by rw [hid, e])
      simp [auth.delete, sessionGet_newContext, hget, session_registered, hid, hne,
        Context.NoContent]
  refine ⟨fun h => ⟨hyes h, ?_⟩, fun h => ⟨hno h, ?_⟩, ?_⟩
  · rw [hyes h]
    exact lookup_mapErase_self store CookieTokenName
  · intro env' a' req'
    rw [hno h]
  · constructor
    · intro h
      by_contra hne
      rw [hno hne] at h
      simp at h
    · intro h
      rw [hyes h]

/-- C7 at a session with id `st` and the request `DELETE /auths/st`. -/
theorem delete_iff_bound_witness :
    handler.delete env (newContext (bare "st") (sessionStore xyz)) =
      ({ request := bare "st", response := [{ status := 204, body := Body.empty }],
         registry := [(CookieTokenName,
           { loadSession env (sessionStore xyz) CookieTokenName with
             Options := { MaxAge := -1 } })],
         store := mapErase (sessionStore xyz) CookieTokenName,
         trace := [Event.save CookieTokenName
           { loadSession env (sessionStore xyz) CookieTokenName with
             Options := { MaxAge := -1 } } true] },
       none) ∧
    (handler.delete env (newContext (bare "st") (sessionStore xyz))).1.store.lookup
      CookieTokenName = none :=
  (delete_iff_bound env handler (bare "st") (sessionStore xyz) rfl (fun _ => rfl)).1 rfl

/-! ## C8: a token that is still valid -/

theorem expired_eq_false_iff (now : Int) (t : oauth2.Token) :
    t.expired now = false ↔ (t.Expiry = 0 ∨ now + oauth2.expiryDelta ≤ t.Expiry) := by
  unfold oauth2.Token.expired
  by_cases h0 : t.Expiry = 0
  · simp [h0]
  · simp only [h0, if_false, false_or, decide_eq_false_iff_not, not_lt]
    constructor <;> intro h <;> omega

/-- C8 (amended). For every session holding a token with a non-empty access
token `a` that has no expiry, or whose expiry lies at least ten seconds
(`expiryDelta`, the margin by which the library counts a token as expired
before its expiry) after the clock reading, and a registered idp,
`AuthMiddleware` hands the next handler the request with the `Authorization`
header set to exactly `Type() + " " + a`, makes no refresh call and no save,
and leaves session and store unchanged; `Type()` is `Bearer` when the token
type is empty or is `bearer` in any letter case. -/
theorem authMiddleware_unexpired (env : Env) (a : auth)
    (next : Context → Context × Option String) (req : Request)
    (store : List (String × Stored)) (tok : oauth2.Token) (idp : String) (p : oauth2.Config)
    (hget : env.getErr CookieTokenName = none)
    (htok : assertToken ((loadSession env store CookieTokenName).Values.lookup sessionKeyToken)
      = some tok)
    (hidp : assertString ((loadSession env store CookieTokenName).Values.lookup sessionKeyProvider)
      = some idp)
    (hp : a.providers.lookup idp = some p)
    (hexp : tok.Expiry = 0 ∨ env.now + 10 * 1000000000 ≤ tok.Expiry)
    (hne : tok.AccessToken ≠ "") :
    a.AuthMiddleware env next (newContext req store) =
      next { request := { req with Authorization := some (tok.Type ++ " " ++ tok.AccessToken) },
             response := [],
             registry := [(CookieTokenName, loadSession env store CookieTokenName)],
             store := store, trace := [Event.next] } ∧
    ((tok.TokenType = "" ∨ oauth2.equalFold tok.TokenType "bearer" = true) →
      tok.Type = "Bearer") := by
  have hexp' : tok.expired env.now = false := (expired_eq_false_iff env.now tok).2 hexp
  constructor
  · simp [auth.AuthMiddleware, sessionGet_newContext, hget, session_registered, htok, hidp, hp,
      tokenSourceToken, oauth2.Token.Valid, hexp', hne, Context.SetAuthHeader, Context.log]
  · exact type_bearer tok

/-- C8 at a session whose token expires exactly ten seconds after the clock
reading: the token is used as it is, with no refresh call. -/
theorem authMiddleware_unexpired_witness :
    handler.AuthMiddleware env done (newContext (bare "") (sessionStore marginToken)) =
      done { request := { bare "" with
                          Authorization :=
                            some (marginToken.Type ++ " " ++ marginToken.AccessToken) },
             response := [],
             registry := [(CookieTokenName,
                           loadSession env (sessionStore marginToken) CookieTokenName)],
             store := sessionStore marginToken, trace := [Event.next] } ∧
    ((marginToken.TokenType = "" ∨ oauth2.equalFold marginToken.TokenType "bearer" = true) →
      marginToken.Type = "Bearer") :=
  authMiddleware_unexpired env handler done (bare "") (sessionStore marginToken) marginToken
    "myidp" myidp rfl rfl rfl rfl (Or.inr (by decide)) (by decide)

/-- C8 as stated fails, in three ways. An unexpired token of type `MAC` with
access token `xyz` yields the header `MAC xyz`. An unexpired token with an
empty access token is not used at all: the request is rejected with 401. And
a token with access token `xyz` that expires five seconds after the clock
reading, so is not yet expired, is not used either: without refresh token the
request is rejected with 401, no header set and the next handler not called;
with a refresh token the provider is called and the header carries the
refreshed token `new`. -/
theorem authMiddleware_unexpired_counterexample :
    (macToken.expired env.now = false ∧ macToken.AccessToken = "xyz" ∧
      (handler.AuthMiddleware env done
        (newContext (bare "") (sessionStore macToken))).1.request.Authorization = some "MAC xyz" ∧
      (handler.AuthMiddleware env done
        (newContext (bare "") (sessionStore macToken))).1.request.Authorization
          ≠ some "Bearer xyz") ∧
    (blankToken.expired env.now = false ∧
      (handler.AuthMiddleware env done
        (newContext (bare "") (sessionStore blankToken))).1.response =
          [{ status := 401, body := Body.empty }] ∧
      (handler.AuthMiddleware env done
        (newContext (bare "") (sessionStore blankToken))).1.request.Authorization = none ∧
      (handler.AuthMiddleware env done
        (newContext (bare "") (sessionStore blankToken))).1.trace = []) ∧
    (env.now < soonToken.Expiry ∧ soonToken.AccessToken = "xyz" ∧
      (handler.AuthMiddleware env done
        (newContext (bare "") (sessionStore soonToken))).1.response =
          [{ status := 401, body := Body.empty }] ∧
      (handler.AuthMiddleware env done
        (newContext (bare "") (sessionStore soonToken))).1.request.Authorization = none ∧
      (handler.AuthMiddleware env done
        (newContext (bare "") (sessionStore soonToken))).1.trace = []) ∧
    (env.now < soonRefreshable.Expiry ∧ soonRefreshable.AccessToken = "xyz" ∧
      (handler.AuthMiddleware env done
        (newContext (bare "") (sessionStore soonRefreshable))).1.trace =
          [Event.refresh myidp "r1", Event.next] ∧
      (handler.AuthMiddleware env done
        (newContext (bare "") (sessionStore soonRefreshable))).1.request.Authorization =
          some "Bearer new") := by
  decide

/-! ## C9: when the middleware rejects -/

/-- C9 (amended). `AuthMiddleware` answers by one of seven cases, and invokes
the next handler in the last only, the token attached: the store cannot hand
out the session: 500; the session holds no token (no session, or a `token`
value that is absent or not a token): 401; a token but no provider string: 500;
a provider that is not registered: 500; a token that is expired (or has no
access token) and has no refresh token: 401; such a token whose refresh fails:
401 after the one refresh call; a current token obtained: the next handler is
called on the request carrying it. In the six rejecting cases the result is the
same for every next handler. -/
theorem authMiddleware_rejects (env : Env) (a : auth) (req : Request)
    (store : List (String × Stored)) :
    (∀ err, env.getErr CookieTokenName = some err →
      ∀ next, a.AuthMiddleware env next (newContext req store) =
        ({ request := req, response := [{ status := 500, body := Body.empty }],
           registry := [], store := store, trace := [] },
         some ("unable to get session: " ++ err))) ∧
    (env.getErr CookieTokenName = none →
    (assertToken ((loadSession env store CookieTokenName).Values.lookup sessionKeyToken) = none →
      ∀ next, a.AuthMiddleware env next (newContext req store) =
        ({ request := req, response := [{ status := 401, body := Body.empty }],
           registry := [(CookieTokenName, loadSession env store CookieTokenName)],
           store := store, trace := [] },
         some "unable to get token from session")) ∧
    (∀ tok,
      assertToken ((loadSession env store CookieTokenName).Values.lookup sessionKeyToken)
        = some tok →
      assertString ((loadSession env store CookieTokenName).Values.lookup sessionKeyProvider)
        = none →
      ∀ next, a.AuthMiddleware env next (newContext req store) =
        ({ request := req, response := [{ status := 500, body := Body.empty }],
           registry := [(CookieTokenName, loadSession env store CookieTokenName)],
           store := store, trace := [] },
         some "unable to find idp in session")) ∧
    (∀ tok idp,
      assertToken ((loadSession env store CookieTokenName).Values.lookup sessionKeyToken)
        = some tok →
      assertString ((loadSession env store CookieTokenName).Values.lookup sessionKeyProvider)
        = some idp →
      a.providers.lookup idp = none →
      ∀ next, a.AuthMiddleware env next (newContext req store) =
        ({ request := req, response := [{ status := 500, body := Body.empty }],
           registry := [(CookieTokenName, loadSession env store CookieTokenName)],
           store := store, trace := [] },
         some ("unable to find idp " ++ idp ++ " in configured providers"))) ∧
    (∀ tok idp p,
      assertToken ((loadSession env store CookieTokenName).Values.lookup sessionKeyToken)
        = some tok →
      assertString ((loadSession env store CookieTokenName).Values.lookup sessionKeyProvider)
        = some idp →
      a.providers.lookup idp = some p →
      (tok.expired env.now = true ∨ tok.AccessToken = "") →
      tok.RefreshToken = "" →
      ∀ next, a.AuthMiddleware env next (newContext req store) =
        ({ request := req, response := [{ status := 401, body := Body.empty }],
           registry := [(CookieTokenName, loadSession env store CookieTokenName)],
           store := store, trace := [] },
         some "unable to get access token: oauth2: token expired and refresh token is not set")) ∧
    (∀ tok idp p err,
      assertToken ((loadSession env store CookieTokenName).Values.lookup sessionKeyToken)
        = some tok →
      assertString ((loadSession env store CookieTokenName).Values.lookup sessionKeyProvider)
        = some idp →
      a.providers.lookup idp = some p →
      (tok.expired env.now = true ∨ tok.AccessToken = "") →
      tok.RefreshToken ≠ "" →
      env.refresh p tok.RefreshToken = .error err →
      ∀ next, a.AuthMiddleware env next (newContext req store) =
        ({ request := req, response := [{ status := 401, body := Body.empty }],
           registry := [(CookieTokenName, loadSession env store CookieTokenName)],
           store := store, trace := [Event.refresh p tok.RefreshToken] },
         some ("unable to get access token: " ++ err))) ∧
    (∀ tok idp p c t,
      assertToken ((loadSession env store CookieTokenName).Values.lookup sessionKeyToken)
        = some tok →
      assertString ((loadSession env store CookieTokenName).Values.lookup sessionKeyProvider)
        = some idp →
      a.providers.lookup idp = some p →
      tokenSourceToken env p tok
        { request := req, response := [],
          registry := [(CookieTokenName, loadSession env store CookieTokenName)],
          store := store, trace := [] } = (c, .ok t) →
      ∀ next, a.AuthMiddleware env next (newContext req store) =
        next { request := { c.request with
                            Authorization := some (t.Type ++ " " ++ t.AccessToken) },
               response := c.response, registry := c.registry, store := c.store,
               trace := c.trace ++ [Event.next] })) := by
  have hvalid : ∀ tok : oauth2.Token, (tok.expired env.now = true ∨ tok.AccessToken = "") →
      tok.Valid env.now = false := by
    intro tok h
    rcases h with h | h
    · exact valid_false_of_expired _ _ h
    · simp [oauth2.Token.Valid, h]
  refine ⟨?_, fun hget => ⟨?_, ?_, ?_, ?_, ?_, ?_⟩⟩
  · intro err herr next
    have hfail : sessionGet env CookieTokenName (newContext req store) = .error err := by
      simp [sessionGet, newContext, herr]
    simp only [auth.AuthMiddleware, hfail]
    rfl
  · intro htok next
    simp [auth.AuthMiddleware, sessionGet_newContext, hget, session_registered, htok,
      Context.NoContent]
  · intro tok htok hidp next
    simp [auth.AuthMiddleware, sessionGet_newContext, hget, session_registered, htok, hidp,
      Context.NoContent]
  · intro tok idp htok hidp hp next
    simp [auth.AuthMiddleware, sessionGet_newContext, hget, session_registered, htok, hidp, hp,
      Context.NoContent]
  · intro tok idp p htok hidp hp hexp hrt next
    simp [auth.AuthMiddleware, sessionGet_newContext, hget, session_registered, htok, hidp, hp,
      tokenSourceToken, hvalid tok hexp, hrt, Context.NoContent]
  · intro tok idp p err htok hidp hp hexp hrt href next
    simp [auth.AuthMiddleware, sessionGet_newContext, hget, session_registered, htok, hidp, hp,
      tokenSourceToken, hvalid tok hexp, hrt, href, Context.NoContent, Context.log]
  · intro tok idp p c t htok hidp hp hts next
    simp [auth.AuthMiddleware, sessionGet_newContext, hget, session_registered, htok, hidp, hp,
      hts, Context.SetAuthHeader, Context.log]

/-- C9 at a session that holds a token and no provider: 500, whatever the next handler. -/
theorem authMiddleware_rejects_witness :
    handler.AuthMiddleware env done (newContext (bare "") noProviderStore) =
      ({ request := bare "", response := [{ status := 500, body := Body.empty }],
         registry := [(CookieTokenName, loadSession env noProviderStore CookieTokenName)],
         store := noProviderStore, trace := [] },
       some "unable to find idp in session") :=
  ((authMiddleware_rejects env handler (bare "") noProviderStore).2 rfl).2.1 xyz rfl rfl done

/-- C9 as stated fails. A session that holds a token but no provider is
malformed, and a session cookie the store cannot decode is malformed; in both
cases the middleware answers 500, not 401. -/
theorem authMiddleware_malformed_is_500 :
    (assertToken ((loadSession env noProviderStore CookieTokenName).Values.lookup sessionKeyToken)
        = some xyz ∧
      assertString ((loadSession env noProviderStore CookieTokenName).Values.lookup
        sessionKeyProvider) = none ∧
      (handler.AuthMiddleware env done (newContext (bare "") noProviderStore)).1.response =
        [{ status := 500, body := Body.empty }]) ∧
    (brokenEnv.getErr CookieTokenName = some "securecookie: the value is not valid" ∧
      (handler.AuthMiddleware brokenEnv done (newContext (bare "") (sessionStore xyz))).1.response =
        [{ status := 500, body := Body.empty }]) := by
  decide

/-! ## C10: PKCE parameters -/

/-- C10. For every code verifier, `CodeChallengeOptions` returns exactly the
two parameters `code_challenge` and `code_challenge_method`, the latter being
the verifier's method, the former base64url without padding of the SHA-256 of
the verifier when the method is `S256` and the verifier itself when it is
`plain`; `VerifierOptions` returns exactly the one parameter `code_verifier`,
the verifier string; and `NewCodeVerifier`, whenever the entropy source
delivers, returns the hex of the bytes read with method `S256`, so every
verifier it produces has method `S256`. -/
theorem pkce_parameters (c : pkce.CodeVerifier) (rand : Nat → Except String (List Nat)) :
    (∃ challenge,
      c.CodeChallengeOptions =
        [{ key := "code_challenge", value := challenge },
         { key := "code_challenge_method", value := c.Method }] ∧
      (c.Method = "S256" →
        challenge = Lib.rawURLEncode (Lib.sha256 (Lib.bytesOfString c.Verifier))) ∧
      (c.Method = "plain" → challenge = c.Verifier)) ∧
    c.VerifierOptions = [{ key := "code_verifier", value := c.Verifier }] ∧
    (∀ buf, rand 32 = .ok buf →
      pkce.NewCodeVerifier rand = .ok { Verifier := Lib.hexEncode buf, Method := "S256" }) ∧
    (∀ v, pkce.NewCodeVerifier rand = .ok v → v.Method = "S256") := by
  refine ⟨?_, rfl, ?_, ?_⟩
  · by_cases hm : c.Method = "S256"
    · refine ⟨Lib.rawURLEncode (Lib.sha256 (Lib.bytesOfString c.Verifier)), ?_, fun _ => rfl, ?_⟩
      · simp [pkce.CodeVerifier.CodeChallengeOptions, pkce.ChallengeMethodS256, hm,
          pkce.ParamCodeChallenge, pkce.ParamCodeChallengeMethod]
      · intro hp
        rw [hm] at hp
        exact absurd hp (by decide)
    · refine ⟨c.Verifier, ?_, fun h => absurd h hm, fun _ => rfl⟩
      simp [pkce.CodeVerifier.CodeChallengeOptions, pkce.ChallengeMethodS256, hm,
        pkce.ParamCodeChallenge, pkce.ParamCodeChallengeMethod]
  · intro buf hbuf
    simp [pkce.NewCodeVerifier, pkce.randomBytesInHex, hbuf, pkce.ChallengeMethodS256]
  · intro v hv
    unfold pkce.NewCodeVerifier at hv
    split at hv
    · cases hv
    · cases hv
      rfl

/-- C10 at the verifier of RFC 7636, appendix B: the challenge is the one the RFC gives. -/
theorem pkce_parameters_witness :
    verifier.CodeChallengeOptions =
      [{ key := "code_challenge", value := "E9Melhoa2OwvFrEMTJguCHaoeK1t8URWbuGJSstw-cM" },
       { key := "code_challenge_method", value := "S256" }] ∧
    verifier.VerifierOptions =
      [{ key := "code_verifier", value := "dBjftJeZ4CVP-mB92K27uhbUJU1p1r_wW1gFWFOEjXk" }] := by
  obtain ⟨⟨challenge, hopts, hs256, -⟩, hver, -, -⟩ :=
    pkce_parameters verifier (fun _ => .error "no entropy")
  refine ⟨?_, hver⟩
  rw [hopts, hs256 rfl]
  decide

/-! ## Query encoding -/

theorem getD_all (l : List Char) (d : Char) (n : Nat) (P : Char → Prop)
    (hl : ∀ c ∈ l, P c) (hd : P d) : P (l.getD n d) := by
  induction l generalizing n with
  | nil => simpa using hd
  | cons x xs ih =>
    cases n with
    | zero => simpa using hl x (List.mem_cons_self x xs)
    | succ n =>
      simpa using ih n (fun c hc => hl c (List.mem_cons_of_mem x hc))

theorem hexDigit_unreserved (n : Nat) : url.unreserved (Lib.hexDigit n).toNat = true :=
  getD_all _ _ n (fun c => url.unreserved c.toNat = true) (by decide) (by decide)

theorem b64Digit_unreserved (n : Nat) : url.unreserved (Lib.b64Digit n).toNat = true :=
  getD_all _ _ n (fun c => url.unreserved c.toNat = true) (by decide) (by decide)

theorem hexEncode_unreserved (bs : List Nat) :
    ∀ c ∈ (Lib.hexEncode bs).toList, url.unreserved c.toNat = true := by
  intro c hc
  simp only [Lib.hexEncode, String.toList, List.mem_flatMap] at hc
  obtain ⟨b, -, hb⟩ := hc
  simp only [List.mem_cons, List.mem_singleton, List.not_mem_nil, or_false] at hb
  rcases hb with rfl | rfl
  · exact hexDigit_unreserved _
  · exact hexDigit_unreserved _

theorem b64Chars_unreserved (bs : List Nat) :
    ∀ c ∈ Lib.b64Chars bs, url.unreserved c.toNat = true := by
  induction bs using Lib.b64Chars.induct with
  | case1 => simp [Lib.b64Chars]
  | case2 a =>
    intro c hc
    simp only [Lib.b64Chars, List.mem_cons, List.mem_singleton, List.not_mem_nil, or_false] at hc
    rcases hc with rfl | rfl <;> exact b64Digit_unreserved _
  | case3 a b =>
    intro c hc
    simp only [Lib.b64Chars, List.mem_cons, List.mem_singleton, List.not_mem_nil, or_false] at hc
    rcases hc with rfl | rfl | rfl <;> exact b64Digit_unreserved _
  | case4 a b c rest ih =>
    intro x hx
    simp only [Lib.b64Chars, List.mem_cons] at hx
    rcases hx with rfl | rfl | rfl | rfl | hx
    · exact b64Digit_unreserved _
    · exact b64Digit_unreserved _
    · exact b64Digit_unreserved _
    · exact b64Digit_unreserved _
    · exact ih x hx

theorem escape_unreserved_chars (l : List Char)
    (h : ∀ c ∈ l, url.unreserved c.toNat = true) :
    (l.flatMap Lib.utf8Char).flatMap url.escapeByte = l := by
  induction l with
  | nil => rfl
  | cons c cs ih =>
    have hc : url.unreserved c.toNat = true := h c (List.mem_cons_self c cs)
    have hlt : c.toNat < 0x80 := by
      simp only [url.unreserved, Bool.or_eq_true, Bool.and_eq_true, decide_eq_true_eq,
        beq_iff_eq] at hc
      omega
    have hu : Lib.utf8Char c = [c.toNat] := by simp [Lib.utf8Char, hlt]
    have he : url.escapeByte c.toNat = [c] := by simp [url.escapeByte, hc, Char.ofNat_toNat]
    simp only [List.flatMap_cons, hu, List.singleton_append, he]
    rw [ih (fun x hx => h x (List.mem_cons_of_mem c hx))]

theorem QueryEscape_unreserved (s : String)
    (h : ∀ c ∈ s.toList, url.unreserved c.toNat = true) : url.QueryEscape s = s := by
  simp only [url.QueryEscape, Lib.bytesOfString]
  rw [escape_unreserved_chars s.toList h]
  rfl

/-! ## Sorted parameters -/

theorem mem_of_lookup {α : Type} (l : List (String × α)) (k : String) (x : α)
    (h : l.lookup k = some x) : (k, x) ∈ l := by
  induction l with
  | nil => simp at h
  | cons e l ih =>
    rcases e with ⟨k', v⟩
    by_cases hk : k = k'
    · subst hk
      simp only [List.lookup_cons, beq_self_eq_true] at h
      cases h
      exact List.mem_cons_self _ _
    · have hk' : (k == k') = false := by simpa using hk
      simp only [List.lookup_cons, hk'] at h
      exact List.mem_cons_of_mem _ (ih h)

theorem mem_insertParam (kv y : String × String) (l : List (String × String)) :
    y ∈ url.insertParam kv l ↔ y = kv ∨ y ∈ l := by
  induction l with
  | nil => simp [url.insertParam]
  | cons x xs ih =>
    unfold url.insertParam
    split
    · simp
    · simp only [List.mem_cons, ih]
      tauto

theorem mem_sortParams (y : String × String) (l : List (String × String)) :
    y ∈ url.sortParams l ↔ y ∈ l := by
  induction l with
  | nil => simp [url.sortParams]
  | cons x xs ih => simp [url.sortParams, mem_insertParam, ih]

theorem mem_parts_of_lookup (v : url.Values) (k x : String) (h : v.lookup k = some x) :
    url.QueryEscape k ++ "=" ++ url.QueryEscape x ∈ url.Values.parts v := by
  simp only [url.Values.parts, List.mem_map]
  exact ⟨(k, x), (mem_sortParams _ _).2 (mem_of_lookup v k x h), rfl⟩

theorem lookup_authCodeValues_options (c : oauth2.Config) (state challenge method : String) :
    (c.authCodeValues state
        [{ key := "code_challenge", value := challenge },
         { key := "code_challenge_method", value := method }]).lookup "code_challenge"
      = some challenge ∧
    (c.authCodeValues state
        [{ key := "code_challenge", value := challenge },
         { key := "code_challenge_method", value := method }]).lookup "code_challenge_method"
      = some method := by
  constructor
  · simp only [oauth2.Config.authCodeValues, List.foldl]
    rw [lookup_mapSet_ne _ _ _ _ (by decide), lookup_mapSet_self]
  · simp only [oauth2.Config.authCodeValues, List.foldl]
    rw [lookup_mapSet_self]

theorem lookup_authCodeValues_state (c : oauth2.Config) (state challenge method : String)
    (hne : state ≠ "") :
    (c.authCodeValues state
        [{ key := "code_challenge", value := challenge },
         { key := "code_challenge_method", value := method }]).lookup "state" = some state := by
  simp only [oauth2.Config.authCodeValues, List.foldl, hne, ne_eq, not_false_eq_true, if_true]
  rw [lookup_mapSet_ne _ _ _ _ (by decide), lookup_mapSet_ne _ _ _ _ (by decide),
    lookup_mapSet_self]

theorem lookup_authCodeValues_base (c : oauth2.Config) (state challenge method : String) :
    (c.authCodeValues state
        [{ key := "code_challenge", value := challenge },
         { key := "code_challenge_method", value := method }]).lookup "response_type"
      = some "code" ∧
    (c.authCodeValues state
        [{ key := "code_challenge", value := challenge },
         { key := "code_challenge_method", value := method }]).lookup "client_id"
      = some c.ClientID := by
  constructor
  · simp only [oauth2.Config.authCodeValues, List.foldl]
    rw [lookup_mapSet_ne _ _ _ _ (by decide), lookup_mapSet_ne _ _ _ _ (by decide)]
    split_ifs <;>
      simp [lookup_mapSet_ne, List.lookup_cons]
  · simp only [oauth2.Config.authCodeValues, List.foldl]
    rw [lookup_mapSet_ne _ _ _ _ (by decide), lookup_mapSet_ne _ _ _ _ (by decide)]
    split_ifs <;>
      simp [lookup_mapSet_ne, List.lookup_cons]

/-! ## The generated state and verifier -/

theorem append_unreserved (a b : String)
    (ha : ∀ c ∈ a.toList, url.unreserved c.toNat = true)
    (hb : ∀ c ∈ b.toList, url.unreserved c.toNat = true) :
    ∀ c ∈ (a ++ b).toList, url.unreserved c.toNat = true := by
  intro c hc
  simp only [String.toList, String.data_append, List.mem_append] at hc
  rcases hc with hc | hc
  · exact ha c hc
  · exact hb c hc

theorem encodeHex_unreserved (u : List Nat) :
    ∀ c ∈ (uuid.encodeHex u).toList, url.unreserved c.toNat = true := by
  unfold uuid.encodeHex
  repeat (first
    | exact hexEncode_unreserved _
    | (intro c hc; revert c hc; decide)
    | apply append_unreserved)

theorem encodeHex_ne_empty (u : List Nat) : uuid.encodeHex u ≠ "" := by
  intro h
  have hmem : '-' ∈ (uuid.encodeHex u).toList := by
    simp [uuid.encodeHex, String.toList, String.data_append]
  rw [h] at hmem
  simp at hmem

theorem rawURLEncode_unreserved (bs : List Nat) :
    ∀ c ∈ (Lib.rawURLEncode bs).toList, url.unreserved c.toNat = true :=
  b64Chars_unreserved bs

theorem NewCodeVerifier_method (rand : Nat → Except String (List Nat)) (v : pkce.CodeVerifier)
    (h : pkce.NewCodeVerifier rand = .ok v) : v.Method = "S256" := by
  unfold pkce.NewCodeVerifier at h
  split at h
  · cases h
  · cases h
    rfl

theorem challengeOptions_S256 (v : pkce.CodeVerifier) (h : v.Method = "S256") :
    v.CodeChallengeOptions =
      [{ key := "code_challenge",
         value := Lib.rawURLEncode (Lib.sha256 (Lib.bytesOfString v.Verifier)) },
       { key := "code_challenge_method", value := "S256" }] := by
  simp [pkce.CodeVerifier.CodeChallengeOptions, pkce.ChallengeMethodS256, h,
    pkce.ParamCodeChallenge, pkce.ParamCodeChallengeMethod]

/-! ## C11: `createAuth` -/

/-- C11. For every `createAuth` call with a registered idp, whatever verifier
and state the entropy source yields (the body binding, the store answering its
get and save): the call returns `nil`; it saves under the state a session
whose `state` value is the pending authentication `{idp, verifier, path}`, with
options secure, http-only, strict same-site, path `/auths`, max age 300, and
that record is what the store then holds under the state; it responds 201 with
the payload, idp and path as received, and the authorization URL; and that URL
is the provider's authorization endpoint followed by the parameters joined by
`&`, among them `state=` the same state, `client_id=` the provider's client id
(escaped), `response_type=code`, `code_challenge_method=S256` and
`code_challenge=` the base64url SHA-256 of the verifier stored in the record. -/
theorem createAuth_start (env : Env) (a : auth) (rand : Nat → Except String (List Nat))
    (req : Request) (store : List (String × Stored)) (payload : AuthResource)
    (verifier : pkce.CodeVerifier) (u : List Nat) (p : oauth2.Config)
    (hbody : req.body = .ok payload)
    (hv : pkce.NewCodeVerifier rand = .ok verifier)
    (hu : uuid.NewRandomFromReader rand = .ok u)
    (hget : env.getErr (uuid.encodeHex u) = none)
    (hsave : ∀ s, env.saveErr (uuid.encodeHex u) s = none)
    (hp : a.providers.lookup payload.Idp = some p) :
    (a.createAuth env rand (newContext req store)).2 = none ∧
    (a.createAuth env rand (newContext req store)).1.response =
      [{ status := 201,
         body := Body.resource
           { payload with
             AuthorizationURL :=
               p.AuthCodeURL (uuid.encodeHex u) verifier.CodeChallengeOptions } }] ∧
    (a.createAuth env rand (newContext req store)).1.trace =
      [Event.save (uuid.encodeHex u)
        { Values := mapSet (loadSession env store (uuid.encodeHex u)).Values authState
            (Value.authentication
              { Idp := payload.Idp, Verifier := some verifier, Path := payload.Path }),
          Options := { Secure := true, MaxAge := 300, HttpOnly := true,
                       SameSite := SameSite.strict, Path := "/auths" } } true] ∧
    (a.createAuth env rand (newContext req store)).1.store.lookup (uuid.encodeHex u) =
      some { values := mapSet (loadSession env store (uuid.encodeHex u)).Values authState
               (Value.authentication
                 { Idp := payload.Idp, Verifier := some verifier, Path := payload.Path }),
             cookie := { Secure := true, MaxAge := 300, HttpOnly := true,
                         SameSite := SameSite.strict, Path := "/auths" } } ∧
    assertAuthentication
      ((loadSession env (a.createAuth env rand (newContext req store)).1.store
        (uuid.encodeHex u)).Values.lookup authState) =
      some { Idp := payload.Idp, Verifier := some verifier, Path := payload.Path } ∧
    p.AuthCodeURL (uuid.encodeHex u) verifier.CodeChallengeOptions =
      p.Endpoint.AuthURL ++ (if p.Endpoint.AuthURL.toList.contains '?' then "&" else "?") ++
        "&".intercalate
          (url.Values.parts (p.authCodeValues (uuid.encodeHex u) verifier.CodeChallengeOptions)) ∧
    "state=" ++ uuid.encodeHex u ∈
      url.Values.parts (p.authCodeValues (uuid.encodeHex u) verifier.CodeChallengeOptions) ∧
    "client_id=" ++ url.QueryEscape p.ClientID ∈
      url.Values.parts (p.authCodeValues (uuid.encodeHex u) verifier.CodeChallengeOptions) ∧
    "response_type=code" ∈
      url.Values.parts (p.authCodeValues (uuid.encodeHex u) verifier.CodeChallengeOptions) ∧
    "code_challenge_method=S256" ∈
      url.Values.parts (p.authCodeValues (uuid.encodeHex u) verifier.CodeChallengeOptions) ∧
    "code_challenge=" ++ Lib.rawURLEncode (Lib.sha256 (Lib.bytesOfString verifier.Verifier)) ∈
      url.Values.parts (p.authCodeValues (uuid.encodeHex u) verifier.CodeChallengeOptions) := by
  have hne := encodeHex_ne_empty u
  have hun := encodeHex_unreserved u
  have hopts := challengeOptions_S256 verifier (NewCodeVerifier_method rand verifier hv)
  generalize hst : uuid.encodeHex u = state at *
  have hrun : ∃ c6 : Context,
      a.createAuth env rand (newContext req store) =
        (c6.JSON 201 (Body.resource
          { payload with AuthorizationURL := p.AuthCodeURL state verifier.CodeChallengeOptions }),
         none) ∧
      c6.response = [] ∧
      c6.trace = [Event.save state
        { Values := mapSet (loadSession env store state).Values authState
            (Value.authentication
              { Idp := payload.Idp, Verifier := some verifier, Path := payload.Path }),
          Options := { Secure := true, MaxAge := 300, HttpOnly := true,
                       SameSite := SameSite.strict, Path := "/auths" } } true] ∧
      c6.store = mapSet store state
        { values := mapSet (loadSession env store state).Values authState
            (Value.authentication
              { Idp := payload.Idp, Verifier := some verifier, Path := payload.Path }),
          cookie := { Secure := true, MaxAge := 300, HttpOnly := true,
                      SameSite := SameSite.strict, Path := "/auths" } } := by
    refine ⟨(sessionSave env state
      (Context.setValue env
        (Context.setOptions env
          { request := req, response := [], registry := [(state, loadSession env store state)],
            store := store, trace := [] }
          state
          { Secure := true, MaxAge := 300, HttpOnly := true, SameSite := SameSite.strict,
            Path := "/auths" })
        state authState
        (Value.authentication
          { Idp := payload.Idp, Verifier := some verifier, Path := payload.Path }))).1,
      ?_, ?_, ?_, ?_⟩
    · simp only [auth.createAuth, newContext_request, hbody, hv, hu, hst, sessionGet_newContext,
        hget, sessionSave_ok, hsave, hp]
    · simp only [sessionSave_ok, hsave, setValue_response, setOptions_response]
    · simp only [sessionSave_ok, hsave, setValue_trace, setOptions_trace, session_setValue_self,
        session_setOptions_self, session_registered]
      rfl
    · simp only [sessionSave_ok, hsave, setValue_store, setOptions_store, session_setValue_self,
        session_setOptions_self, session_registered]
      simp
  obtain ⟨c6, hres, hresp, htrace, hstore⟩ := hrun
  rw [hres]
  refine ⟨rfl, ?_, ?_, ?_, ?_, rfl, ?_, ?_, ?_, ?_, ?_⟩
  · simp [Context.JSON, hresp]
  · simp [Context.JSON, htrace]
  · simp only [Context.JSON, hstore, lookup_mapSet_self]
  · simp only [Context.JSON, hstore, loadSession, lookup_mapSet_self]
    rfl
  · have h := mem_parts_of_lookup _ _ _
      (lookup_authCodeValues_state p state
        (Lib.rawURLEncode (Lib.sha256 (Lib.bytesOfString verifier.Verifier))) "S256" hne)
    rw [QueryEscape_unreserved state hun] at h
    rw [hopts]
    exact h
  · have h := mem_parts_of_lookup _ _ _
      (lookup_authCodeValues_base p state
        (Lib.rawURLEncode (Lib.sha256 (Lib.bytesOfString verifier.Verifier))) "S256").2
    rw [hopts]
    exact h
  · have h := mem_parts_of_lookup _ _ _
      (lookup_authCodeValues_base p state
        (Lib.rawURLEncode (Lib.sha256 (Lib.bytesOfString verifier.Verifier))) "S256").1
    rw [hopts]
    exact h
  · have h := mem_parts_of_lookup _ _ _
      (lookup_authCodeValues_options p state
        (Lib.rawURLEncode (Lib.sha256 (Lib.bytesOfString verifier.Verifier))) "S256").2
    rw [hopts]
    exact h
  · have h := mem_parts_of_lookup _ _ _
      (lookup_authCodeValues_options p state
        (Lib.rawURLEncode (Lib.sha256 (Lib.bytesOfString verifier.Verifier))) "S256").1
    rw [QueryEscape_unreserved _ (rawURLEncode_unreserved _)] at h
    rw [hopts]
    exact h

/-- C11 at the request of `TestCreateAuth`, the entropy source delivering the
bytes 0, 1, 2, ...: the call returns `nil`, answers 201 with the idp and the
authorization URL written out, and the record saved under the state holds the
pending authentication with the generated verifier. -/
theorem createAuth_start_witness :
    (handler.createAuth env counting (newContext post [])).2 = none ∧
    (handler.createAuth env counting (newContext post [])).1.response =
      [{ status := 201,
         body := Body.resource
           { Idp := "myidp",
             AuthorizationURL :=
               "http://localhost?client_id=client-id&code_challenge=bIbGqsX7JLz12ZOct9fVZFzjlBj0SeA7Ji3U-hS0uSs&code_challenge_method=S256&response_type=code&state=00010203-0405-4607-8809-0a0b0c0d0e0f" } }] ∧
    assertAuthentication
      ((loadSession env (handler.createAuth env counting (newContext post [])).1.store
        "00010203-0405-4607-8809-0a0b0c0d0e0f").Values.lookup authState) =
      some { Idp := "myidp", Verifier := some countingVerifier, Path := "" } := by
  have h := createAuth_start env handler counting post [] { Idp := "myidp" } countingVerifier
    countingUUID myidp rfl rfl rfl rfl (fun _ => rfl) rfl
  refine ⟨h.1, ?_, ?_⟩
  · rw [h.2.1]
    decide
  · have h5 := h.2.2.2.2.1
    have hst : uuid.encodeHex countingUUID = "00010203-0405-4607-8809-0a0b0c0d0e0f" := by decide
    rw [hst] at h5
    exact h5

end TokenHandler
